import Mathlib

/-!
Verification development for the ARIA agent-orchestration pipeline.

Shallow embedding of the Python sources:
  app/agent/agent_config/{edges,nodes,graph,state}.py
  app/agent/memory/sliding_window.py
  app/agent/tools/consolidation.py
  app/agent/sub_agents/tool_builder/{edges,nodes,graph,state}.py

Modelling conventions:
  * Python JSON-ish values are the inductive type `J` below; Python `None`
    is `J.jnull`, dicts are ordered association lists (`J.jobj`).
  * Python floats are rationals (`Rat`); `round(x, 4)` is half-even
    rounding to four decimals.
  * Every call to an external effect (the LLM, file extraction, RAG,
    renderers, the exec sandbox, `datetime.utcnow`) is an explicit
    parameter of the embedded node function, so the nodes are pure
    functions of state and of their effect outcomes, exactly as the
    routing layer sees them.
  * LangGraph nodes return partial state updates that are merged into the
    state; the embedding applies the update directly, leaving every field
    not mentioned by the Python return dict unchanged.
  * Incidental string formatting (prompt bodies, float printing inside
    log strings, tracebacks) is not semantically relevant to any routing
    or data decision; prompts are abstracted to fixed stand-in strings and
    tracebacks to the message supplied by the effect parameter.
-/

namespace Aria

/-- JSON-like Python value: None, bool, number, string, list, dict. -/
inductive J where
  | jnull : J
  | jbool : Bool → J
  | jnum  : Rat → J
  | jstr  : String → J
  | jarr  : List J → J
  | jobj  : List (String × J) → J
deriving Repr

/-- Dict lookup, `d.get(k)`: first binding wins (Python keys are unique). -/
def jGet (v : J) (key : String) : Option J :=
  match v with
  | J.jobj kvs => (kvs.find? (fun kv => kv.1 = key)).map Prod.snd
  | _ => none

/-- Keys of a dict, in insertion order (empty for non-dicts). -/
def objKeys (v : J) : List String :=
  match v with
  | J.jobj kvs => kvs.map Prod.fst
  | _ => []

def isObj (v : J) : Bool :=
  match v with
  | J.jobj _ => true
  | _ => false

def isArr (v : J) : Bool :=
  match v with
  | J.jarr _ => true
  | _ => false

/-- Python truthiness of a value. -/
def jTruthy (v : J) : Bool :=
  match v with
  | J.jnull => false
  | J.jbool b => b
  | J.jnum q => q ≠ 0
  | J.jstr s => s ≠ ""
  | J.jarr xs => !xs.isEmpty
  | J.jobj kvs => !kvs.isEmpty

/-- Python `a or b` on optional values (None and falsy values fall through). -/
def pyOrJ (a b : Option J) : Option J :=
  match a with
  | some v => if jTruthy v then some v else b
  | none => b

/-- `d.get(k, default)` specialised to string values (non-strings fall back). -/
def jGetStr (v : J) (key : String) (dflt : String) : String :=
  match jGet v key with
  | some (J.jstr s) => s
  | _ => dflt

/-- Python `pat in s` substring test. -/
def strContains (s pat : String) : Bool :=
  s.toList.tails.any (fun t => pat.toList.isPrefixOf t)

/-- Python `s[:n]` on strings. -/
def strTake (s : String) (n : Nat) : String :=
  ((s.toList).take n).asString

/-- Python `s.lower()` (character-wise; the identifiers it is applied to
are ASCII). -/
def lowerStr (s : String) : String :=
  (s.toList.map Char.toLower).asString

/-- Python `s.replace(c, r)` for single-character patterns. -/
def replaceChar (s : String) (c r : Char) : String :=
  (s.toList.map (fun ch => if ch = c then r else ch)).asString

/-- Decimal parser standing for Python `float(str)` on plain decimal
literals (optional sign, integer part, optional fractional part). -/
def floatOfString (s : String) : Option Rat :=
  let core (cs : List Char) : Option Rat :=
    let intPart := cs.takeWhile (fun c => c.isDigit)
    let rest := cs.dropWhile (fun c => c.isDigit)
    let fracPart : Option (List Char) :=
      match rest with
      | [] => some []
      | c :: tl => if c = '.' ∧ tl.all (fun d => d.isDigit) then some tl else none
    match fracPart with
    | none => none
    | some frac =>
      if intPart = [] ∧ frac = [] then none
      else
        let digitsVal (ds : List Char) : Nat :=
          ds.foldl (fun acc d => acc * 10 + (d.toNat - 48)) 0
        some ((digitsVal intPart : Rat) +
          (digitsVal frac : Rat) / ((10 : Rat) ^ frac.length))
  match s.toList with
  | [] => none
  | '-' :: tl => (core tl).map (fun q => -q)
  | '+' :: tl => core tl
  | cs => core cs

/-- Python `float(v)`: numbers pass, bools coerce, numeric strings parse,
everything else raises (modelled as `none`). -/
def floatOf (v : J) : Option Rat :=
  match v with
  | J.jnum q => some q
  | J.jbool b => some (if b then 1 else 0)
  | J.jstr s => floatOfString s
  | _ => none

/-- Nearest integer, ties to even (Python 3 `round`). -/
def halfEvenRound (x : Rat) : Int :=
  let f : Int := ⌊x⌋
  let r : Rat := x - (f : Rat)
  if r < 1/2 then f
  else if 1/2 < r then f + 1
  else if f % 2 = 0 then f else f + 1

/-- Python `round(x, 4)`. -/
def round4 (x : Rat) : Rat :=
  (halfEvenRound (x * 10000) : Rat) / 10000

/-- `min` of a nonempty list (callers guard emptiness, as Python does). -/
def listMin (l : List Rat) : Rat :=
  match l with
  | [] => 0
  | x :: xs => xs.foldl min x

/-- `max` of a nonempty list. -/
def listMax (l : List Rat) : Rat :=
  match l with
  | [] => 0
  | x :: xs => xs.foldl max x

/-! ## Sliding-window memory — `app/agent/memory/sliding_window.py` -/

/-- A LangChain message: HumanMessage, AIMessage or SystemMessage. -/
inductive Msg where
  | human : String → Msg
  | ai : String → Msg
  | system : String → Msg
deriving Repr, DecidableEq

def Msg.content : Msg → String
  | Msg.human c => c
  | Msg.ai c => c
  | Msg.system c => c

/-- `msg.__class__.__name__.replace("Message","").upper()`. -/
def Msg.roleTag : Msg → String
  | Msg.human _ => "HUMAN"
  | Msg.ai _ => "AI"
  | Msg.system _ => "SYSTEM"

def Msg.isSystem : Msg → Bool
  | Msg.system _ => true
  | _ => false

/-- `SlidingWindowMemory.process` with the default parameters used by
`apply_sliding_window` (window_size 10, overlap 2, max_messages 20) on a
fresh instance (`self._summary = ""`).  The LLM summarisation call is the
`summarize` parameter. -/
def slidingWindowProcess (summarize : String → String) (messages : List Msg) :
    List Msg :=
  if messages.length ≤ 20 then messages
  else
    let activeWindow := messages.drop (messages.length - 10)
    let toCompress := messages.take (messages.length - 10 + 2)
    let historyText := String.intercalate "\n"
      (toCompress.map (fun m => "[" ++ m.roleTag ++ "]: " ++ strTake m.content 500))
    let prompt := "MESSAGES À COMPRESSER :\n" ++ historyText
    let summary := summarize prompt
    Msg.system ("[CONTEXTE PRÉCÉDENT]\n" ++ summary) :: activeWindow

/-- `apply_sliding_window(messages)` as called from the nodes. -/
def apply_sliding_window (summarize : String → String) (messages : List Msg) :
    List Msg :=
  slidingWindowProcess summarize messages

/-- `_windowed_context` from `app/agent/agent_config/nodes.py`: window the
conversation, then return the content of the first SystemMessage whose
content contains the marker "[PREVIOUS CONTEXT]". -/
def windowed_context (summarize : String → String) (messages : List Msg) :
    Option String :=
  if messages.isEmpty then none
  else
    let windowed := apply_sliding_window summarize messages
    (windowed.find? (fun m =>
      m.isSystem && strContains m.content "[PREVIOUS CONTEXT]")).map Msg.content

/-! ## Orchestrator state — `app/agent/agent_config/state.py`

`ARIAState` is a `TypedDict(total=False)`; every read in the nodes and
edges goes through `state.get(key, default)` with a falsy default, so the
embedding is a total record whose field defaults coincide with those
`get` defaults.  (`output_formats` and `consolidated_data` are always set
by `run_aria` / earlier stages before their only non-falsy-default reads.) -/

structure DataSource where
  source_id : Option String := none
  source_type : Option String := none
  path_or_url : Option String := none
  data_format : Option String := none
  metadata : J := J.jobj []
deriving Repr

/-- A `node_history` entry appended by `_record_node`. -/
structure NodeEntry where
  node : String
  timestamp : String
  status : String
  summary : String
deriving Repr, DecidableEq

/-- A `decisions` entry appended by `_record_decision`. -/
structure DecisionEntry where
  node : String
  condition : String
  outcome : String
  reason : String
deriving Repr, DecidableEq

structure ARIAState where
  messages : List Msg := []
  domain : String := ""
  domain_confidence : Rat := 0
  reporting_period : String := ""
  kpis : List String := []
  clarification_question : Option String := none
  needs_research_agent : Bool := false
  needs_tool_builder : Bool := false
  missing_tool_spec : J := J.jobj []
  tool_builder_result : J := J.jobj []
  data_sources : List DataSource := []
  user_query : Option String := none
  extracted_data : List J := []
  processed_data : List J := []
  consolidated_data : J := J.jobj []
  rag_context : List String := []
  rag_queries : List String := []
  triz_analysis : J := J.jobj []
  key_findings : List J := []
  recommendations : List J := []
  confidence_score : Rat := 0
  degraded_report : Bool := false
  output_formats : List String := []
  final_report : J := J.jobj []
  current_node : String := ""
  node_history : List NodeEntry := []
  decisions : List DecisionEntry := []
  report_artifacts : J := J.jobj []
  iteration : Nat := 0
  errors : List String := []
  status : String := ""

/-! ## Routing — `app/agent/agent_config/edges.py` -/

/-- `route_after_domain`. -/
def route_after_domain (state : ARIAState) : String :=
  if state.needs_research_agent then "research_agent"
  else if state.domain_confidence < 0.30 then "human_checkpoint"
  else "data_extractor"

/-- `route_after_extraction`. -/
def route_after_extraction (state : ARIAState) : String :=
  if state.extracted_data.isEmpty && !state.errors.isEmpty then "error_handler"
  else "data_operator"

/-- `route_after_operations`. -/
def route_after_operations (state : ARIAState) : String :=
  if state.needs_tool_builder then "tool_builder_agent"
  else if state.processed_data.isEmpty && !state.errors.isEmpty then "error_handler"
  else "rag_retriever"

/-- `route_after_triz`. -/
def route_after_triz (state : ARIAState) : String :=
  if state.confidence_score ≥ 0.70 ∨ state.iteration ≥ 3 then "report_generator"
  else "data_extractor"

/-- `route_after_error`. -/
def route_after_error (state : ARIAState) : String :=
  if state.iteration < 3 then "data_extractor"
  else "report_generator"

/-- Successor relation of the compiled graph in
`app/agent/agent_config/graph.py` (`build_graph`): conditional edges use
the routing functions, the remaining edges are unconditional, and
`report_generator` goes to END (`none`). -/
def graphSuccessor (node : String) (state : ARIAState) : Option String :=
  if node = "domain_identifier" then some (route_after_domain state)
  else if node = "human_checkpoint" then some "data_extractor"
  else if node = "research_agent" then some "data_extractor"
  else if node = "tool_builder_agent" then some "rag_retriever"
  else if node = "data_extractor" then some (route_after_extraction state)
  else if node = "data_operator" then some (route_after_operations state)
  else if node = "rag_retriever" then some "data_consolidator"
  else if node = "data_consolidator" then some "triz_analyzer"
  else if node = "triz_analyzer" then some (route_after_triz state)
  else if node = "error_handler" then some (route_after_error state)
  else none

/-! ## Node implementations — `app/agent/agent_config/nodes.py`

Every external effect is a parameter: `now` stands for `_now()`, the
`oracle`/`plan` parameters for the parsed JSON of `llm.invoke_for_json`
(`none` = invalid JSON), and the per-leaf callbacks for the tool calls.
Prompt text construction is abstracted to stand-in strings (no decision
reads prompt text). -/

/-- `_record_node`: append a `node_history` entry and set `current_node`. -/
def recordNode (s : ARIAState) (name timestamp status summary : String) : ARIAState :=
  { s with current_node := name,
           node_history := s.node_history ++
             [{ node := name, timestamp := timestamp, status := status, summary := summary }] }

/-- `_record_decision`: append a `decisions` entry. -/
def recordDecision (s : ARIAState) (node condition outcome reason : String) : ARIAState :=
  { s with decisions := s.decisions ++
      [{ node := node, condition := condition, outcome := outcome, reason := reason }] }

/-- Python `x or y` for an optional string (`None` and `""` fall through). -/
def pyOrStr (x : Option String) (y : String) : String :=
  match x with
  | some s => if s = "" then y else s
  | none => y

/-- Python `x or y` for an optional list (`None` and `[]` fall through). -/
def pyOrList (x : Option (List String)) (y : List String) : List String :=
  match x with
  | some l => if l.isEmpty then y else l
  | none => y

def optStrJ (o : Option String) : J :=
  match o with
  | some s => J.jstr s
  | none => J.jnull

def jGetD (v : J) (key : String) (dflt : J) : J :=
  (jGet v key).getD dflt

/-- Dict assignment `d[k] = v`: replace in place, or append a new key. -/
def jSet (v : J) (key : String) (val : J) : J :=
  match v with
  | J.jobj kvs =>
    if (kvs.find? (fun kv => kv.1 = key)).isSome then
      J.jobj (kvs.map (fun kv => if kv.1 = key then (key, val) else kv))
    else
      J.jobj (kvs ++ [(key, val)])
  | _ => v

/-- Parsed JSON reply of the `domain_identifier` LLM call;
each field is `none` when the key is absent from the reply. -/
structure DomainResult where
  reasoning : Option String := none
  domain : Option String := none
  reporting_period : Option String := none
  kpis : Option (List String) := none
  domain_confidence : Option Rat := none
  needs_research_agent : Option Bool := none
  clarification_question : Option String := none

/-- NODE 1 — `domain_identifier`. -/
def domain_identifier (now : String) (oracle : Option DomainResult)
    (s : ARIAState) : ARIAState :=
  let viz := recordNode s "domain_identifier" now "running"
    "Identifying domain, period, and KPIs"
  match oracle with
  | none =>
    { viz with errors := s.errors ++ ["domain_identifier: LLM returned invalid JSON"],
               domain_confidence := 0, domain := "unknown", status := "running" }
  | some result =>
    let conf := result.domain_confidence.getD 0
    let withDecision := recordDecision viz "domain_identifier"
      ("confidence=" ++ toString conf)
      (if conf ≥ 0.6 then "proceed" else "human_checkpoint")
      (result.reasoning.getD "")
    { withDecision with
        messages := s.messages ++ [Msg.human "domain_identifier prompt", Msg.ai "raw"],
        domain := result.domain.getD "unknown",
        reporting_period := result.reporting_period.getD "unknown",
        kpis := result.kpis.getD [],
        domain_confidence := conf,
        needs_research_agent := result.needs_research_agent.getD false,
        clarification_question := result.clarification_question,
        errors := s.errors,
        status := "running" }

/-- The human correction injected at the interrupt resume
(`human_input` in `human_checkpoint`). -/
structure HumanInput where
  domain : Option String := none
  reporting_period : Option String := none
  kpis : Option (List String) := none

/-- NODE 2 — `human_checkpoint`. -/
def human_checkpoint (now : String) (human : HumanInput) (s : ARIAState) : ARIAState :=
  let viz := recordNode s "human_checkpoint" now "waiting"
    "Waiting for human domain confirmation"
  { viz with
      domain := pyOrStr human.domain s.domain,
      reporting_period := pyOrStr human.reporting_period s.reporting_period,
      kpis := pyOrList human.kpis s.kpis,
      domain_confidence := 1,
      status := "running" }

/-- Extractor choice of `data_extractor`: `EXTRACTOR_MAP` holds the four
built-in source kinds plus the dynamically discovered `extract_from_X`
functions (`extraFormats`); a file source with a declared format prefers
the format-specific extractor, falling back to `extract_from_file`. -/
def extractorName (extraFormats : List String) (src : DataSource) : String :=
  let mapKeys := ["file", "database", "api", "web"] ++ extraFormats
  let srcType := src.source_type.getD "file"
  let dataFormat := lowerStr (src.data_format.getD "")
  if srcType = "file" ∧ dataFormat ≠ "" then
    if dataFormat ∈ mapKeys then "extract_from_" ++ dataFormat
    else "extract_from_file"
  else
    if srcType ∈ mapKeys then "extract_from_" ++ srcType
    else "extract_from_file"

/-- The per-source extraction loop of `data_extractor`: successes append a
provenance record, failures append an error string. -/
def extractLoop (now : String) (extraFormats : List String)
    (extract : String → DataSource → Except String J)
    (srcs : List DataSource) (extracted : List J) (errors : List String) :
    List J × List String :=
  match srcs with
  | [] => (extracted, errors)
  | src :: rest =>
    match extract (extractorName extraFormats src) src with
    | Except.ok data =>
      extractLoop now extraFormats extract rest
        (extracted ++ [J.jobj [
          ("source_id", optStrJ src.source_id),
          ("source_type", J.jstr (src.source_type.getD "file")),
          ("data", data),
          ("extracted_at", J.jstr now),
          ("extractor_used", J.jstr (extractorName extraFormats src))]])
        errors
    | Except.error e =>
      extractLoop now extraFormats extract rest extracted
        (errors ++ ["data_extractor [" ++ src.source_id.getD "None" ++ "]: " ++ e])

/-- NODE 3 — `data_extractor`. -/
def data_extractor (now : String) (extraFormats : List String)
    (extract : String → DataSource → Except String J) (s : ARIAState) : ARIAState :=
  let viz := recordNode s "data_extractor" now "running"
    "Extracting data from all sources"
  let out := extractLoop now extraFormats extract s.data_sources [] s.errors
  { viz with
      extracted_data := out.1,
      errors := out.2,
      iteration := s.iteration + 1 }

/-! ## Consolidation tool — `app/agent/tools/consolidation.py` -/

/-- One step of the flattening loop in `consolidate_report`: returns the
records contributed by one `processed_data` entry together with its
`source_summary` entry.  Entries that are neither lists nor dicts are
skipped (no branch matches). -/
def consolidateFlattenStep (entry : J) : List J × List J :=
  match entry with
  | J.jarr xs =>
    (xs.filter isObj,
     [J.jobj [("type", J.jstr "list"), ("count", J.jnum xs.length)]])
  | J.jobj kvs =>
    let data := pyOrJ (pyOrJ (jGet (J.jobj kvs) "data") (jGet (J.jobj kvs) "rows"))
      (jGet (J.jobj kvs) "pages")
    match data with
    | some (J.jarr xs) =>
      (xs.filter isObj,
       [J.jobj [("source_id", jGetD (J.jobj kvs) "source_id" (J.jstr "unknown")),
                ("source_type", jGetD (J.jobj kvs) "source_type" (J.jstr "unknown")),
                ("count", J.jnum xs.length)]])
    | some (J.jobj dkvs) =>
      ([J.jobj dkvs],
       [J.jobj [("source_id", jGetD (J.jobj kvs) "source_id" (J.jstr "unknown")),
                ("source_type", jGetD (J.jobj kvs) "source_type" (J.jstr "unknown")),
                ("count", J.jnum 1)]])
    | _ =>
      ([J.jobj kvs], [J.jobj [("type", J.jstr "flat"), ("count", J.jnum 1)]])
  | _ => ([], [])

/-- The full flattening loop: `all_records` and `source_summary`. -/
def consolidateFlatten (processed : List J) : List J × List J :=
  match processed with
  | [] => ([], [])
  | entry :: rest =>
    let here := consolidateFlattenStep entry
    let there := consolidateFlatten rest
    (here.1 ++ there.1, here.2 ++ there.2)

/-- The numeric values collected for one field over all records
(`float(rec.get(field))`, conversion failures skipped). -/
def fieldVals (records : List J) (field : String) : List Rat :=
  records.filterMap (fun rec => (jGet rec field).bind floatOf)

/-- The five-statistic rollup stored in `stats[field]`. -/
def statsRollup (vals : List Rat) : J :=
  J.jobj [
    ("count", J.jnum vals.length),
    ("sum", J.jnum (round4 vals.sum)),
    ("avg", J.jnum (round4 (vals.sum / vals.length))),
    ("min", J.jnum (listMin vals)),
    ("max", J.jnum (listMax vals))]

/-- The `stats` dict: fields are taken from the FIRST record only
(`sample = all_records[0]`), values over all records. -/
def compute_stats (records : List J) : List (String × J) :=
  match records with
  | [] => []
  | sample :: rest =>
    (objKeys sample).filterMap (fun field =>
      if (fieldVals (sample :: rest) field).isEmpty then none
      else some (field, statsRollup (fieldVals (sample :: rest) field)))

/-- `kpi.lower().replace(" ", "_")`. -/
def kpiKey (kpi : String) : String :=
  replaceChar (lowerStr kpi) ' ' '_' 

/-- The numeric values matched to one KPI: every value `rec[k]` whose key
`k` contains the normalised KPI name as a substring of `k.lower()` and is
float-convertible. -/
def kpiVals (records : List J) (kpi : String) : List Rat :=
  records.flatMap (fun rec =>
    (objKeys rec).filterMap (fun k =>
      match jGet rec k with
      | some v =>
        if strContains (lowerStr k) (kpiKey kpi) && (floatOf v).isSome
        then floatOf v else none
      | none => none))

/-- The four-statistic rollup stored in `kpi_data[kpi]` (note: no count). -/
def kpiRollup (vals : List Rat) : J :=
  J.jobj [
    ("avg", J.jnum (round4 (vals.sum / vals.length))),
    ("sum", J.jnum (round4 vals.sum)),
    ("min", J.jnum (listMin vals)),
    ("max", J.jnum (listMax vals))]

/-- The `kpi_data` dict. -/
def compute_kpi_data (kpis : List String) (records : List J) : List (String × J) :=
  kpis.filterMap (fun kpi =>
    if (kpiVals records kpi).isEmpty then none
    else some (kpi, kpiRollup (kpiVals records kpi)))

/-- `consolidate_report` (`datetime.utcnow().isoformat()` is `now`). -/
def consolidate_report (processed_data : List J) (rag_context : List String)
    (domain : String) (kpis : List String) (reporting_period : String)
    (now : String) : J :=
  let fl := consolidateFlatten processed_data
  J.jobj [
    ("domain", J.jstr domain),
    ("reporting_period", J.jstr reporting_period),
    ("kpis", J.jarr (kpis.map J.jstr)),
    ("kpi_data", J.jobj (compute_kpi_data kpis fl.1)),
    ("records", J.jarr fl.1),
    ("record_count", J.jnum fl.1.length),
    ("source_summary", J.jarr fl.2),
    ("stats", J.jobj (compute_stats fl.1)),
    ("rag_context", J.jarr (rag_context.map J.jstr)),
    ("rag_chunks_used", J.jnum rag_context.length),
    ("consolidated_at", J.jstr now)]

/-! ## Nodes 4-9, stubs — `nodes.py`, `graph.py` -/

def truthyO (o : Option J) : Bool :=
  (o.map jTruthy).getD false

/-- `data.get("format") == "unknown"` on `src_data.get("data", {})`. -/
def entryUnknownFormat (e : J) : Bool :=
  let data := jGetD e "data" (J.jobj [])
  isObj data &&
    (match jGet data "format" with
     | some (J.jstr f) => f = "unknown"
     | _ => false)

/-- `path.rsplit(".", 1)[-1].lower() if "." in path else "unknown"`. -/
def pathExtension (path : String) : String :=
  if strContains path "." then
    lowerStr ((path.toList.reverse.takeWhile (fun c => c ≠ '.')).reverse).asString
  else "unknown"

/-- The spec dict built by the unsupported-format branch of
`data_operator` (literal description strings abbreviated). -/
def unknownFormatSpec (ext : String) : J :=
  J.jobj [
    ("tool_name", J.jstr ("extract_from_" ++ ext)),
    ("description", J.jstr ("Extract and parse structured data from " ++
      ext.toUpper ++ " files into a list of dicts")),
    ("input_schema", J.jobj [("source", J.jstr "dict with path_or_url and metadata")]),
    ("output_schema", J.jobj [("rows", J.jstr "list[dict]"), ("columns", J.jstr "list[str]")]),
    ("example_usage", J.jstr ("extract_from_" ++ ext ++ " example"))]

/-- The fallback plan used when the LLM reply is invalid JSON. -/
def fallbackPlan : J :=
  J.jobj [
    ("operations", J.jarr [J.jobj [("op", J.jstr "normalize"), ("params", J.jobj [])]]),
    ("missing_tool", J.jobj [("needed", J.jbool false)])]

def opMapKeys : List String := ["filter", "aggregate", "normalize", "compare"]

/-- `plan.get("operations", [])` coerced to a list. -/
def operationsOf (planJ : J) : List J :=
  match jGetD planJ "operations" (J.jarr []) with
  | J.jarr xs => xs
  | _ => []

/-- The operation-application loop of `data_operator`: unknown op names
are skipped (`OP_MAP.get` misses), failures append an error.  The
`applyOp` parameter stands for `_normalize_params` plus the tool call. -/
def opsLoop (applyOp : String → J → List J → Except String (List J))
    (ops : List J) (processed : List J) (errors : List String) :
    List J × List String :=
  match ops with
  | [] => (processed, errors)
  | opDef :: rest =>
    match jGet opDef "op" with
    | some (J.jstr nm) =>
      if nm ∈ opMapKeys then
        match applyOp nm (jGetD opDef "params" (J.jobj [])) processed with
        | Except.ok p => opsLoop applyOp rest p errors
        | Except.error e =>
          opsLoop applyOp rest processed
            (errors ++ ["data_operator [" ++ nm ++ "]: " ++ e])
      else opsLoop applyOp rest processed errors
    | _ => opsLoop applyOp rest processed errors

/-- NODE 4 — `data_operator`.  `plan` is the parsed LLM reply. -/
def data_operator (now : String) (plan : Option J)
    (applyOp : String → J → List J → Except String (List J))
    (s : ARIAState) : ARIAState :=
  let viz := recordNode s "data_operator" now "running"
    "Transforming and enriching extracted data"
  match s.extracted_data.find? entryUnknownFormat with
  | some entry =>
    let data := jGetD entry "data" (J.jobj [])
    let ext := pathExtension (jGetStr data "path" "")
    { viz with
        needs_tool_builder := true,
        missing_tool_spec := unknownFormatSpec ext,
        errors := s.errors }
  | none =>
    let planJ := plan.getD fallbackPlan
    let missing := jGetD planJ "missing_tool" (J.jobj [])
    if truthyO (jGet missing "needed") && truthyO (jGet missing "tool_name") then
      { viz with
          messages := s.messages ++ [Msg.human "data_operator prompt", Msg.ai "raw plan"],
          needs_tool_builder := true,
          missing_tool_spec := J.jobj [
            ("tool_name", jGetD missing "tool_name" J.jnull),
            ("description", jGetD missing "description" (J.jstr "")),
            ("input_schema", jGetD missing "input_schema" (J.jobj [])),
            ("output_schema", jGetD missing "output_schema" (J.jobj [])),
            ("example_usage", jGetD missing "example_usage" (J.jstr ""))],
          errors := s.errors }
    else
      let out := opsLoop applyOp (operationsOf planJ) s.extracted_data s.errors
      { viz with
          messages := s.messages ++ [Msg.human "data_operator prompt", Msg.ai "raw plan"],
          processed_data := out.1,
          needs_tool_builder := false,
          errors := out.2 }

/-- The per-query retrieval loop of `rag_retriever`. -/
def ragLoop (queryRag : String → Except String (List String))
    (queries : List String) (ctx : List String) (errors : List String) :
    List String × List String :=
  match queries with
  | [] => (ctx, errors)
  | q :: rest =>
    match queryRag q with
    | Except.ok chunks => ragLoop queryRag rest (ctx ++ chunks) errors
    | Except.error e => ragLoop queryRag rest ctx (errors ++ ["rag_retriever: " ++ e])

/-- NODE 5 — `rag_retriever`. -/
def rag_retriever (now : String) (queryRag : String → Except String (List String))
    (s : ARIAState) : ARIAState :=
  let viz := recordNode s "rag_retriever" now "running" "Querying RAG knowledge base"
  let base := [
    s.domain ++ " activity report benchmarks " ++ s.reporting_period,
    s.domain ++ " KPI standards: " ++ String.intercalate ", " (s.kpis.take 3),
    "historical trends " ++ s.domain ++ " " ++ s.reporting_period]
  let queries := base ++
    (match s.user_query with
     | some uq => if uq = "" then [] else [s.domain ++ " " ++ strTake uq 100]
     | none => [])
  let out := ragLoop queryRag queries [] s.errors
  { viz with rag_queries := queries, rag_context := out.1, errors := out.2 }

/-- NODE 6 — `data_consolidator`.  The Python `try` around
`consolidate_report` can only fall to its fallback branch on an exception,
and the embedded `consolidate_report` is total, so the call is direct. -/
def data_consolidator (now : String) (s : ARIAState) : ARIAState :=
  let viz := recordNode s "data_consolidator" now "running"
    "Consolidating all data into unified dataset"
  { viz with
      consolidated_data := consolidate_report s.processed_data s.rag_context
        s.domain s.kpis s.reporting_period now,
      errors := s.errors }

/-- Parsed JSON reply of the `triz_analyzer` LLM call
(`confidence_score` already through `float(...)`). -/
structure TrizResult where
  contradictions : Option (List J) := none
  ideal_final_result : Option String := none
  triz_principles_applied : Option (List J) := none
  root_causes : Option (List J) := none
  cross_analysis : Option J := none
  key_findings : Option (List J) := none
  recommendations : Option (List J) := none
  confidence_score : Option Rat := none
  confidence_rationale : Option String := none

/-- NODE 7 — `triz_analyzer`. -/
def triz_analyzer (now : String) (oracle : Option TrizResult) (s : ARIAState) :
    ARIAState :=
  let viz := recordNode s "triz_analyzer" now "running" "Applying TRIZ analysis"
  match oracle with
  | none =>
    { viz with
        triz_analysis := J.jobj [],
        confidence_score := 0,
        errors := s.errors ++ ["triz_analyzer: LLM returned invalid JSON"] }
  | some result =>
    let confidence := result.confidence_score.getD 0.5
    let withDecision := recordDecision viz "triz_analyzer"
      ("confidence=" ++ toString confidence ++ ", iteration=" ++ toString s.iteration)
      (if confidence ≥ 0.70 ∨ s.iteration ≥ 3 then "report_generator" else "data_extractor")
      (result.confidence_rationale.getD "")
    { withDecision with
        messages := s.messages ++ [Msg.human "triz_analyzer prompt", Msg.ai "raw"],
        triz_analysis := J.jobj [
          ("contradictions", J.jarr (result.contradictions.getD [])),
          ("ideal_final_result", J.jstr (result.ideal_final_result.getD "")),
          ("triz_principles_applied", J.jarr (result.triz_principles_applied.getD [])),
          ("root_causes", J.jarr (result.root_causes.getD [])),
          ("cross_analysis", (result.cross_analysis.getD (J.jobj [])))],
        key_findings := result.key_findings.getD [],
        recommendations := result.recommendations.getD [],
        confidence_score := confidence,
        degraded_report := decide (s.iteration ≥ 3) && decide (confidence < 0.70),
        errors := s.errors }

/-- The per-format renderer loop of `report_generator` (the two Python
loops run the same body over `[markdown, html]` then `[pdf, pptx]`). -/
def renderLoop (render : String → Except String String)
    (fmts output_formats : List String) (artifacts : J) (errors : List String) :
    J × List String :=
  match fmts with
  | [] => (artifacts, errors)
  | fmt :: rest =>
    if fmt ∈ output_formats then
      match render fmt with
      | Except.ok a => renderLoop render rest output_formats (jSet artifacts fmt (J.jstr a)) errors
      | Except.error e =>
        renderLoop render rest output_formats artifacts
          (errors ++ ["render_" ++ fmt ++ ": " ++ e])
    else renderLoop render rest output_formats artifacts errors

/-- LAYER 1 of `report_generator`: the six-section structured report. -/
def final_report_of (now : String) (s : ARIAState) : J :=
  J.jobj [
    ("1_overview", J.jobj [
      ("domain", J.jstr s.domain),
      ("reporting_period", J.jstr s.reporting_period),
      ("kpis", J.jarr (s.kpis.map J.jstr)),
      ("data_sources", J.jarr (s.data_sources.map (fun d => optStrJ d.source_id))),
      ("user_query", optStrJ s.user_query),
      ("generated_at", J.jstr now),
      ("degraded", J.jbool s.degraded_report)]),
    ("2_data_summary", J.jobj [
      ("consolidated_dataset", s.consolidated_data),
      ("rag_chunks_used", J.jnum s.rag_context.length)]),
    ("3_triz_analysis", s.triz_analysis),
    ("4_key_findings", J.jarr s.key_findings),
    ("5_recommendations", J.jarr s.recommendations),
    ("6_confidence", J.jobj [
      ("score", J.jnum s.confidence_score),
      ("percent", J.jstr (toString (s.confidence_score * 100) ++ "%")),
      ("degraded", J.jbool s.degraded_report)])]

/-- The two renderer loops of `report_generator`, run in source order:
markdown and html first, pdf and pptx second. -/
def renderPipeline (render : String → Except String String)
    (output_formats : List String) (start : J × List String) : J × List String :=
  renderLoop render ["pdf", "pptx"] output_formats
    (renderLoop render ["markdown", "html"] output_formats start.1 start.2).1
    (renderLoop render ["markdown", "html"] output_formats start.1 start.2).2

/-- NODE 8 — `report_generator` (percent formatting abstracted). -/
def report_generator (now : String)
    (renderChartsOut : Except String (List String))
    (render : String → Except String String) (s : ARIAState) : ARIAState :=
  let viz := recordNode s "report_generator" now "running" "Generating final report"
  let afterCharts : J × List String :=
    match renderChartsOut with
    | Except.ok paths =>
      (jSet (J.jobj [("json", final_report_of now s)]) "charts"
        (J.jarr (paths.map J.jstr)), s.errors)
    | Except.error e =>
      (J.jobj [("json", final_report_of now s)],
       s.errors ++ ["render_charts: " ++ e])
  { viz with
      final_report := final_report_of now s,
      report_artifacts := (renderPipeline render s.output_formats afterCharts).1,
      errors := (renderPipeline render s.output_formats afterCharts).2,
      status := "done" }

/-- NODE 9 — `error_handler`. -/
def error_handler (now : String) (s : ARIAState) : ARIAState :=
  let viz := recordNode s "error_handler" now "running"
    "Handling errors and deciding retry"
  let withDecision := recordDecision viz "error_handler"
    ("iteration=" ++ toString s.iteration)
    (if s.iteration < 3 then "data_extractor" else "report_generator")
    (if s.iteration < 3 then "Retrying extraction"
     else "Max retries reached - generating degraded report")
  { withDecision with
      errors := s.errors,
      degraded_report := decide (s.iteration ≥ 3),
      status := "running" }

/-- `research_agent` stub from `graph.py` (returns only two keys). -/
def research_agent (s : ARIAState) : ARIAState :=
  { s with needs_research_agent := false, current_node := "research_agent" }

/-- The smoke-validation step of `tool_builder_agent`: attempted only for
a successful result carrying code; a validation exception appends an
error and leaves `validated = False`. -/
def tbAgentValidation (result : J) (validationOutcome : Except String Bool)
    (errors : List String) : Bool × List String :=
  if (match jGet result "status" with
      | some (J.jstr st) => st = "success"
      | _ => false) && truthyO (jGet result "code") then
    match validationOutcome with
    | Except.ok b => (b, errors)
    | Except.error e =>
      (false, errors ++ ["tool_builder_agent validation failed: " ++ e])
  else (false, errors)

/-- `tool_builder_agent` from `graph.py`: the MCP call outcome and the
in-process smoke-validation outcome are parameters.  `callOutcome.error`
is an exception escaping `asyncio.run` (the inner `_call_mcp` catches its
own exceptions and returns a failed dict, covered by the `ok` case). -/
def tool_builder_agent (callOutcome : Except String J)
    (validationOutcome : Except String Bool) (s : ARIAState) : ARIAState :=
  let afterCall : J × List String :=
    match callOutcome with
    | Except.ok r =>
      (if isObj r then r
       else J.jobj [("status", J.jstr "failed"), ("error", J.jstr "Unexpected result type")],
       s.errors)
    | Except.error e =>
      (J.jobj [("status", J.jstr "failed"),
               ("error", J.jstr ("tool_builder_agent MCP call failed: " ++ e))],
       s.errors ++ ["tool_builder_agent MCP call failed: " ++ e])
  { s with
      needs_tool_builder := false,
      missing_tool_spec := J.jobj [],
      tool_builder_result := jSet afterCall.1 "validated"
        (J.jbool (tbAgentValidation afterCall.1 validationOutcome afterCall.2).1),
      current_node := "tool_builder_agent",
      errors := (tbAgentValidation afterCall.1 validationOutcome afterCall.2).2 }

/-! ## Tool-builder sub-machine — `app/agent/sub_agents/tool_builder/` -/

/-- `ToolResult` from `tool_builder/state.py`; keys absent from a produced
dict keep their (falsy) defaults. -/
structure ToolResult where
  tool_name : String := ""
  status : String := ""
  code : String := ""
  persisted_at : String := ""
  validated : Bool := false
  error : String := ""
deriving Repr, DecidableEq

/-- `ToolBuilderState` (the unused `messages` channel is omitted). -/
structure TBState where
  tool_spec : J := J.jobj []
  generated_code : String := ""
  generation_plan : String := ""
  test_passed : Bool := false
  test_output : String := ""
  test_error : String := ""
  fix_iteration : Nat := 0
  persisted_at : String := ""
  tool_result : Option ToolResult := none
  errors : List String := []
  status : String := ""
  current_node : String := ""

/-- `route_after_test` from `tool_builder/edges.py`. -/
def route_after_test (s : TBState) : String :=
  if s.test_passed then "tool_persister"
  else if s.fix_iteration < 3 then "code_fixer"
  else "END"

/-- `route_after_fix` from `tool_builder/edges.py`. -/
def route_after_fix (_s : TBState) : String :=
  "code_tester"

/-- Parsed JSON of a generation / repair LLM call. -/
structure GenResult where
  code : Option String := none
  reasoning : Option String := none

/-- Python `not result or not result.get("code")` on a generation /
repair reply: yields the code and reasoning when a non-empty code string
is present. -/
def genCode (g : Option GenResult) : Option (String × String) :=
  match g with
  | some r =>
    match r.code with
    | some c => if c = "" then none else some (c, r.reasoning.getD "")
    | none => none
  | none => none

/-- NODE 1 — `code_generator`. -/
def code_generator (gen : Option GenResult) (s : TBState) : TBState :=
  match genCode gen with
  | none =>
    { s with current_node := "code_generator", status := "failed",
             errors := s.errors ++ ["code_generator: LLM returned no code"],
             generated_code := "" }
  | some cr =>
    { s with current_node := "code_generator", status := "running",
             generated_code := cr.1, generation_plan := cr.2 }

/-- Outcome of invoking the synthesized callable on one synthetic input:
a returned value, an exception in the retry set {FileNotFoundError,
KeyError, TypeError}, or an exception of any other class. -/
inductive CallOutcome where
  | ret : J → CallOutcome
  | raiseMatched : CallOutcome
  | raiseOther : CallOutcome

/-- The three synthetic placeholder inputs of `_validate_output_contract`. -/
def testInputs : List J := [
  J.jobj [("path_or_url", J.jstr "/nonexistent_test_file.xml"), ("metadata", J.jobj [])],
  J.jobj [("path_or_url", J.jstr "/nonexistent_test_file.csv"), ("metadata", J.jobj [])],
  J.jobj [("path", J.jstr "/nonexistent_test_file.xlsx"), ("sheet_name", J.jstr "Sheet1"),
          ("filter_column", J.jstr "col"), ("filter_value", J.jstr "val")]]

/-- Outcome of the test-input loop in `_validate_output_contract`. -/
inductive LoopOut where
  | gotResult : J → LoopOut
  | exhausted : LoopOut
  | acceptedExc : LoopOut

/-- The test-input loop: a returned value breaks, a retry-set exception
moves to the next input, any other exception makes the whole validator
return no violation. -/
def validateLoop (call : J → CallOutcome) : List J → LoopOut
  | [] => LoopOut.exhausted
  | input :: rest =>
    match call input with
    | CallOutcome.ret v => LoopOut.gotResult v
    | CallOutcome.raiseMatched => validateLoop call rest
    | CallOutcome.raiseOther => LoopOut.acceptedExc

/-- Outcome of the contract check: no violation, a violation message, or
an uncaught Python exception escaping the validator. -/
inductive ValidateOut where
  | pass : ValidateOut
  | viol : String → ValidateOut
  | exc : String → ValidateOut
deriving Repr, DecidableEq

/-- Python `set(a) == set(b)` on key lists. -/
def sameKeySet (a b : List String) : Bool :=
  a.all (fun k => k ∈ b) && b.all (fun k => k ∈ a)

def hasKey (v : J) (k : String) : Bool :=
  match v with
  | J.jobj kvs => kvs.any (fun kv => kv.1 = k)
  | _ => false

/-- The row-homogeneity loop over `rows[1:]`; a non-dict row raises
(`row.keys()` on a non-dict). -/
def rowsHomogeneity (firstKeys : List String) : List J → ValidateOut
  | [] => ValidateOut.pass
  | row :: rest =>
    match row with
    | J.jobj kvs =>
      if sameKeySet (kvs.map Prod.fst) firstKeys then rowsHomogeneity firstKeys rest
      else ValidateOut.viol "Rows have inconsistent keys"
    | _ => ValidateOut.exc "AttributeError: keys"

/-- The shape checks applied to a non-None returned value
(violation messages abbreviated). -/
def checkResult (v : J) : ValidateOut :=
  if hasKey v "error" then ValidateOut.pass
  else match v with
  | J.jobj _ =>
    match jGet v "rows" with
    | none => ValidateOut.viol "Missing key rows in output"
    | some rows =>
      match rows with
      | J.jarr rlist =>
        match jGet v "columns" with
        | none => ValidateOut.viol "Missing key columns in output"
        | some (J.jarr _) =>
          match rlist with
          | [] => ValidateOut.pass
          | r0 :: rest =>
            match r0 with
            | J.jobj kvs0 => rowsHomogeneity (kvs0.map Prod.fst) rest
            | _ => ValidateOut.viol "rows must contain dicts"
        | some _ => ValidateOut.viol "columns must be a list"
      | _ => ValidateOut.viol "rows must be a list"
  | _ => ValidateOut.viol "Expected dict output"

/-- Check applied to the Python `result` variable after the loop: a
returned `None` is indistinguishable from no successful call and passes;
any other value goes through the shape checks. -/
def postLoopCheck (v : J) : ValidateOut :=
  match v with
  | J.jnull => ValidateOut.pass
  | _ => checkResult v

/-- `_validate_output_contract`: `params` are the parameter names of the
callable, `call` its behaviour on an input dict.  `ValidateOut.pass`
corresponds to the Python function returning `None`. -/
def validate_output_contract (params : List String) (call : J → CallOutcome) :
    ValidateOut :=
  if params.isEmpty then ValidateOut.pass
  else
    match validateLoop call testInputs with
    | LoopOut.acceptedExc => ValidateOut.pass
    | LoopOut.exhausted => ValidateOut.pass
    | LoopOut.gotResult v => postLoopCheck v

/-- Outcome of `exec`-ing the generated source in the sandbox namespace:
an exception during exec, a namespace without the requested callable,
or the callable with its parameter list and invocation behaviour.  Each
carries the captured stdout. -/
inductive SandboxResult where
  | execError : String → String → SandboxResult
  | noFn : String → SandboxResult
  | fn : List String → (J → CallOutcome) → String → SandboxResult

/-- NODE 2 — `code_tester` (tracebacks abstracted to their messages). -/
def code_tester (sandbox : String → SandboxResult) (s : TBState) : TBState :=
  let toolName := jGetStr s.tool_spec "tool_name" "unknown_tool"
  if s.generated_code = "" then
    { s with current_node := "code_tester", test_passed := false,
             test_error := "No code provided",
             errors := s.errors ++ ["code_tester: no code to test"] }
  else
    match sandbox s.generated_code with
    | SandboxResult.execError tb stdout =>
      { s with current_node := "code_tester", test_passed := false,
               test_output := stdout, test_error := tb,
               errors := s.errors ++ ["code_tester: " ++ strTake tb 300] }
    | SandboxResult.noFn stdout =>
      let tb := "NameError: Function " ++ toolName ++ " not found in generated code."
      { s with current_node := "code_tester", test_passed := false,
               test_output := stdout, test_error := tb,
               errors := s.errors ++ ["code_tester: " ++ strTake tb 300] }
    | SandboxResult.fn params call stdout =>
      match validate_output_contract params call with
      | ValidateOut.pass =>
        { s with current_node := "code_tester", test_passed := true,
                 test_output := stdout, test_error := "", errors := s.errors }
      | ValidateOut.viol msg =>
        let tb := "Output contract violation: " ++ msg
        { s with current_node := "code_tester", test_passed := false,
                 test_output := stdout, test_error := tb,
                 errors := s.errors ++ ["code_tester: " ++ strTake tb 300] }
      | ValidateOut.exc msg =>
        { s with current_node := "code_tester", test_passed := false,
                 test_output := stdout, test_error := msg,
                 errors := s.errors ++ ["code_tester: " ++ strTake msg 300] }

/-- NODE 3 — `code_fixer` (`fix` is the repair LLM call, indexed by the
value of `fix_iteration` on entry). -/
def code_fixer (fix : Nat → Option GenResult) (s : TBState) : TBState :=
  match genCode (fix s.fix_iteration) with
  | none =>
    { s with current_node := "code_fixer", fix_iteration := s.fix_iteration + 1,
             errors := s.errors ++ ["code_fixer [attempt " ++
               toString (s.fix_iteration + 1) ++ "]: LLM returned no fix"] }
  | some cr =>
    { s with current_node := "code_fixer", generated_code := cr.1,
             generation_plan := cr.2,
             fix_iteration := s.fix_iteration + 1 }

/-- NODE 4 — `tool_persister` (filesystem writes are the `persist`
parameter, returning the file path or an exception message). -/
def tool_persister (persist : Except String String) (s : TBState) : TBState :=
  let toolName := jGetStr s.tool_spec "tool_name" "unknown_tool"
  match persist with
  | Except.ok filePath =>
    { s with current_node := "tool_persister", persisted_at := filePath,
             tool_result := some { tool_name := toolName, status := "success",
                                   code := s.generated_code, persisted_at := filePath,
                                   validated := false, error := "" },
             status := "done", errors := s.errors }
  | Except.error e =>
    { s with current_node := "tool_persister",
             tool_result := some { tool_name := toolName, status := "failed",
                                   code := s.generated_code, validated := false,
                                   error := e },
             status := "failed", errors := s.errors ++ ["tool_persister: " ++ e] }

/-- The external effects of one synthesis run. -/
structure TBEnv where
  gen : Option GenResult
  sandbox : String → SandboxResult
  fix : Nat → Option GenResult
  persist : Except String String

/-- Executor over the compiled tool-builder graph
(`build_tool_builder_graph`): START → code_generator → code_tester,
conditional edges from `route_after_test`, code_fixer → code_tester,
tool_persister → END.  Returns the final state and the list of nodes
visited. -/
def tbRun (env : TBEnv) : Nat → String → TBState → (TBState × List String)
  | 0, _, s => (s, [])
  | fuel + 1, node, s =>
    if node = "code_generator" then
      ((tbRun env fuel "code_tester" (code_generator env.gen s)).1,
       "code_generator" :: (tbRun env fuel "code_tester" (code_generator env.gen s)).2)
    else if node = "code_tester" then
      if route_after_test (code_tester env.sandbox s) = "END" then
        (code_tester env.sandbox s, ["code_tester"])
      else
        ((tbRun env fuel (route_after_test (code_tester env.sandbox s))
            (code_tester env.sandbox s)).1,
         "code_tester" :: (tbRun env fuel (route_after_test (code_tester env.sandbox s))
            (code_tester env.sandbox s)).2)
    else if node = "code_fixer" then
      ((tbRun env fuel (route_after_fix (code_fixer env.fix s)) (code_fixer env.fix s)).1,
       "code_fixer" :: (tbRun env fuel (route_after_fix (code_fixer env.fix s))
          (code_fixer env.fix s)).2)
    else if node = "tool_persister" then
      (tool_persister env.persist s, ["tool_persister"])
    else (s, [])

/-- The initial state built by `run_tool_builder`. -/
def tbInitialState (tool_spec : J) : TBState :=
  { tool_spec := tool_spec, fix_iteration := 0, errors := [],
    status := "running", current_node := "START", test_passed := false }

/-- The fallback result of `run_tool_builder` when the graph ends without
setting `tool_result` (the Python dict stores `spec.get("tool_name")`,
possibly `None`, abbreviated to the string default). -/
def tbFallbackResult (tool_spec : J) : ToolResult :=
  { tool_name := jGetStr tool_spec "tool_name" "",
    status := "failed",
    error := "No result returned from tool builder graph" }

/-- `run_tool_builder`: invoke the graph and read back `tool_result`.
A fuel of 20 strictly dominates the longest possible path
(generator + 4 tests + 3 fixes + persister = 9 nodes). -/
def run_tool_builder (env : TBEnv) (tool_spec : J) : ToolResult :=
  (tbRun env 20 "code_generator" (tbInitialState tool_spec)).1.tool_result.getD
    (tbFallbackResult tool_spec)

/-- The final sub-machine state of a synthesis run. -/
def tbFinalState (env : TBEnv) (tool_spec : J) : TBState :=
  (tbRun env 20 "code_generator" (tbInitialState tool_spec)).1

/-- The node-visit trace of a synthesis run. -/
def tbTrace (env : TBEnv) (tool_spec : J) : List String :=
  (tbRun env 20 "code_generator" (tbInitialState tool_spec)).2

/-! ## Concrete instances used in counterexamples and witnesses -/

/-- `sandbox_test` verdict of one exec outcome: did the test body reach
`test_passed = True`?  (`code_tester` on non-empty code passes exactly
when the exec produced the callable and the contract check returned no
violation.) -/
def sandboxPasses (sb : SandboxResult) : Bool :=
  match sb with
  | SandboxResult.fn params call _ => validate_output_contract params call = ValidateOut.pass
  | _ => false

/-- A 21-message conversation history (alternating human/AI turns). -/
def msgs21 : List Msg :=
  (List.range 21).map (fun i =>
    if i % 2 = 0 then Msg.human ("m" ++ toString i) else Msg.ai ("m" ++ toString i))

/-- A 20-message conversation history. -/
def msgs20 : List Msg :=
  (List.range 20).map (fun i =>
    if i % 2 = 0 then Msg.human ("m" ++ toString i) else Msg.ai ("m" ++ toString i))

/-- Synthesis environment whose sandbox test always fails with the
failure detail `boom`. -/
def tbEnvAllFail : TBEnv :=
  { gen := some { code := some "code0", reasoning := some "plan" },
    sandbox := fun _ => SandboxResult.execError "boom" "",
    fix := fun n => some { code := some ("fix" ++ toString n), reasoning := some "plan" },
    persist := Except.ok "/tools/extract_from_xml.py" }

def xmlToolSpec : J := J.jobj [("tool_name", J.jstr "extract_from_xml")]

/-- Two processed records whose second record has a numeric field `cost`
absent from the first, plus a KPI-matching `revenue` field. -/
def consolidationInput : List J :=
  [J.jobj [("data", J.jarr [
      J.jobj [("revenue", J.jnum 10)],
      J.jobj [("cost", J.jnum 5), ("revenue", J.jnum 20)]])]]

/-! ## Claim theorems -/

/-- C1 counterexample: at `iteration = 3` with a malformed `triz_analyzer`
LLM reply, the updated state routes to `report_generator` with
`confidence_score = 0 < 0.70`, yet `degraded_report` is still `false` —
the malformed-reply branch never sets the flag. -/
theorem C1_counterexample :
    route_after_triz (triz_analyzer "t" none { iteration := 3 }) = "report_generator" ∧
    (triz_analyzer "t" none { iteration := 3 }).confidence_score < 0.70 ∧
    3 ≤ (triz_analyzer "t" none { iteration := 3 }).iteration ∧
    (triz_analyzer "t" none { iteration := 3 }).degraded_report = false := by
  have hIt : (triz_analyzer "t" none { iteration := 3 }).iteration = 3 := rfl
  have hCf : (triz_analyzer "t" none { iteration := 3 }).confidence_score = 0 := rfl
  have hDg : (triz_analyzer "t" none { iteration := 3 }).degraded_report = false := rfl
  refine ⟨?_, ?_, ?_, hDg⟩
  · unfold route_after_triz
    rw [hCf, hIt]
    norm_num
  · rw [hCf]
    norm_num
  · rw [hIt]

/-- C1 amended: `route_after_triz` sends to `report_generator` exactly
when `confidence_score ≥ 0.70` or `iteration ≥ 3` (else `data_extractor`);
`route_after_error` sends to `data_extractor` exactly when
`iteration < 3` (else `report_generator`); `error_handler` sets
`degraded_report = true` whenever it routes to `report_generator`, and
`triz_analyzer` does so whenever its LLM reply parses and it routes to
`report_generator` with `confidence_score < 0.70` — but on a malformed
LLM reply `triz_analyzer` leaves `degraded_report` unchanged (so a run can
reach `report_generator` at `iteration ≥ 3` with confidence 0 and the flag
still unset). -/
theorem C1_iteration_cap_routing :
    (∀ s : ARIAState,
      (route_after_triz s = "report_generator" ↔
        (s.confidence_score ≥ 0.70 ∨ s.iteration ≥ 3)) ∧
      (route_after_triz s = "data_extractor" ↔
        ¬(s.confidence_score ≥ 0.70 ∨ s.iteration ≥ 3))) ∧
    (∀ s : ARIAState,
      (route_after_error s = "data_extractor" ↔ s.iteration < 3) ∧
      (route_after_error s = "report_generator" ↔ 3 ≤ s.iteration)) ∧
    (∀ (now : String) (s : ARIAState),
      route_after_error (error_handler now s) = "report_generator" →
      (error_handler now s).degraded_report = true) ∧
    (∀ (now : String) (r : TrizResult) (s : ARIAState),
      route_after_triz (triz_analyzer now (some r) s) = "report_generator" →
      (triz_analyzer now (some r) s).confidence_score < 0.70 →
      (triz_analyzer now (some r) s).degraded_report = true) ∧
    (∀ (now : String) (s : ARIAState),
      (triz_analyzer now none s).degraded_report = s.degraded_report) := by
  refine ⟨?_, ?_, ?_, ?_, ?_⟩
  · intro s
    unfold route_after_triz
    refine ⟨⟨?_, ?_⟩, ⟨?_, ?_⟩⟩
    · intro hr
      by_contra hc
      rw [if_neg hc] at hr
      exact absurd hr (by decide)
    · intro hc
      rw [if_pos hc]
    · intro hr hc
      rw [if_pos hc] at hr
      exact absurd hr (by decide)
    · intro hc
      rw [if_neg hc]
  · intro s
    unfold route_after_error
    refine ⟨⟨?_, ?_⟩, ⟨?_, ?_⟩⟩
    · intro hr
      by_contra hc
      rw [if_neg hc] at hr
      exact absurd hr (by decide)
    · intro hc
      rw [if_pos hc]
    · intro hr
      by_cases hc : s.iteration < 3
      · rw [if_pos hc] at hr
        exact absurd hr (by decide)
      · exact Nat.not_lt.mp hc
    · intro h3
      rw [if_neg (Nat.not_lt.mpr h3)]
  · intro now s h
    have hIt : (error_handler now s).iteration = s.iteration := rfl
    by_cases hlt : s.iteration < 3
    · exfalso
      have hda : route_after_error (error_handler now s) = "data_extractor" := by
        unfold route_after_error
        rw [hIt, if_pos hlt]
      rw [hda] at h
      exact absurd h (by decide)
    · have hDg : (error_handler now s).degraded_report = decide (s.iteration ≥ 3) := rfl
      rw [hDg, decide_eq_true_eq]
      omega
  · intro now r s hroute hconf
    have hIt : (triz_analyzer now (some r) s).iteration = s.iteration := rfl
    have hCf : (triz_analyzer now (some r) s).confidence_score =
        r.confidence_score.getD 0.5 := rfl
    have hDg : (triz_analyzer now (some r) s).degraded_report =
        (decide (s.iteration ≥ 3) && decide (r.confidence_score.getD 0.5 < 0.70)) := rfl
    have hcond : (triz_analyzer now (some r) s).confidence_score ≥ 0.70 ∨
        (triz_analyzer now (some r) s).iteration ≥ 3 := by
      by_contra hc
      unfold route_after_triz at hroute
      rw [if_neg hc] at hroute
      exact absurd hroute (by decide)
    have h3 : s.iteration ≥ 3 := by
      rcases hcond with hcd | hcd
      · exact absurd hcd (not_le.mpr hconf)
      · rw [hIt] at hcd
        exact hcd
    rw [hCf] at hconf
    rw [hDg, Bool.and_eq_true, decide_eq_true_eq, decide_eq_true_eq]
    exact ⟨h3, hconf⟩
  · intro now s
    rfl

/-- C1 witness: a state at `iteration = 3` whose `error_handler` pass
routes to `report_generator` and sets the degraded flag. -/
theorem C1_witness :
    route_after_error (error_handler "t" { iteration := 3 }) = "report_generator" ∧
    (error_handler "t" { iteration := 3 }).degraded_report = true := by
  have h : route_after_error (error_handler "t" { iteration := 3 }) = "report_generator" := by
    decide
  exact ⟨h, C1_iteration_cap_routing.2.2.1 "t" { iteration := 3 } h⟩

/-- C2: `route_after_domain` returns `research_agent` exactly on the
needs-research flag; otherwise `human_checkpoint` exactly when
`domain_confidence < 0.30` and `data_extractor` otherwise.  The 0.60
threshold appears only in the `decisions` log entry written by
`domain_identifier`: for a reply with confidence in `[0.30, 0.60)` the
logged outcome says `human_checkpoint` while the actual routing outcome
is `data_extractor`. -/
theorem C2_domain_routing_threshold :
    (∀ s : ARIAState,
      (route_after_domain s = "research_agent" ↔ s.needs_research_agent = true) ∧
      (s.needs_research_agent = false →
        ((route_after_domain s = "human_checkpoint" ↔ s.domain_confidence < 0.30) ∧
         (route_after_domain s = "data_extractor" ↔ 0.30 ≤ s.domain_confidence)))) ∧
    (∀ (now : String) (s : ARIAState) (r : DomainResult),
      r.needs_research_agent.getD false = false →
      0.30 ≤ r.domain_confidence.getD 0 →
      r.domain_confidence.getD 0 < 0.6 →
      (domain_identifier now (some r) s).decisions.getLast? =
        some { node := "domain_identifier",
               condition := "confidence=" ++ toString (r.domain_confidence.getD 0),
               outcome := "human_checkpoint",
               reason := r.reasoning.getD "" } ∧
      route_after_domain (domain_identifier now (some r) s) = "data_extractor") := by
  constructor
  · intro s
    constructor
    · unfold route_after_domain
      by_cases h1 : s.needs_research_agent = true
      · rw [if_pos h1]
        simp [h1]
      · rw [if_neg h1]
        constructor
        · intro hr
          by_cases h2 : s.domain_confidence < 0.30
          · rw [if_pos h2] at hr
            exact absurd hr (by decide)
          · rw [if_neg h2] at hr
            exact absurd hr (by decide)
        · intro hb
          exact absurd hb h1
    · intro hflag
      unfold route_after_domain
      rw [hflag, if_neg (by decide : ¬ (false = true))]
      refine ⟨⟨?_, ?_⟩, ⟨?_, ?_⟩⟩
      · intro hr
        by_contra hc
        rw [if_neg hc] at hr
        exact absurd hr (by decide)
      · intro hc
        rw [if_pos hc]
      · intro hr
        by_cases hc : s.domain_confidence < 0.30
        · rw [if_pos hc] at hr
          exact absurd hr (by decide)
        · exact not_lt.mp hc
      · intro hge
        rw [if_neg (not_lt.mpr hge)]
  · intro now s r hflag hge hlt
    have hdec : (domain_identifier now (some r) s).decisions =
        s.decisions ++ [{ node := "domain_identifier",
                          condition := "confidence=" ++ toString (r.domain_confidence.getD 0),
                          outcome := if r.domain_confidence.getD 0 ≥ 0.6 then "proceed"
                            else "human_checkpoint",
                          reason := r.reasoning.getD "" }] := rfl
    have hflag2 : (domain_identifier now (some r) s).needs_research_agent =
        r.needs_research_agent.getD false := rfl
    have hcf : (domain_identifier now (some r) s).domain_confidence =
        r.domain_confidence.getD 0 := rfl
    constructor
    · rw [hdec, if_neg (not_le.mpr hlt)]
      exact List.getLast?_concat _
    · unfold route_after_domain
      rw [hflag2, hflag, if_neg (by decide : ¬ (false = true)), hcf,
        if_neg (not_lt.mpr hge)]

/-- C2 witness: a reply with confidence 0.45 is logged as
`human_checkpoint` by the 0.60 rule yet routed to `data_extractor` by the
authoritative 0.30 rule. -/
theorem C2_witness :
    (domain_identifier "t" (some { domain_confidence := some 0.45 })
        {}).decisions.getLast? =
      some { node := "domain_identifier", condition := "confidence=" ++ toString (0.45 : Rat),
             outcome := "human_checkpoint", reason := "" } ∧
    route_after_domain (domain_identifier "t" (some { domain_confidence := some 0.45 }) {}) =
      "data_extractor" := by
  exact C2_domain_routing_threshold.2 "t" {} { domain_confidence := some 0.45 }
    rfl (by norm_num) (by norm_num)

/-- C6: the compressor leaves histories of at most 20 messages unchanged
and turns longer ones into exactly one summary message followed by the 10
most recent messages verbatim — but `_windowed_context` searches for the
marker "[PREVIOUS CONTEXT]" while the summary message emitted by
`SlidingWindowMemory.process` starts with "[CONTEXTE PRÉCÉDENT]", so on a
concrete 21-message history the context string extracted for the oracle
is `none`: the summary never reaches any oracle-calling stage. -/
theorem C6_window_summary_never_reaches_oracle :
    (∀ (summarize : String → String) (messages : List Msg),
      messages.length ≤ 20 → apply_sliding_window summarize messages = messages) ∧
    (∀ (summarize : String → String) (messages : List Msg),
      20 < messages.length →
      ∃ summaryText,
        apply_sliding_window summarize messages =
          Msg.system ("[CONTEXTE PRÉCÉDENT]\n" ++ summaryText) ::
            messages.drop (messages.length - 10)) ∧
    (apply_sliding_window (fun _ => "summary") msgs21 =
      Msg.system ("[CONTEXTE PRÉCÉDENT]\nsummary") :: msgs21.drop 11) ∧
    windowed_context (fun _ => "summary") msgs21 = none := by
  refine ⟨?_, ?_, ?_, ?_⟩
  · intro summarize messages h
    unfold apply_sliding_window slidingWindowProcess
    rw [if_pos h]
  · intro summarize messages h
    unfold apply_sliding_window slidingWindowProcess
    rw [if_neg (by omega)]
    exact ⟨_, rfl⟩
  · decide
  · decide

/-- C6 witness: a 20-message history is returned unchanged. -/
theorem C6_witness :
    msgs20.length ≤ 20 ∧ apply_sliding_window (fun _ => "s") msgs20 = msgs20 :=
  ⟨by decide, C6_window_summary_never_reaches_oracle.1 (fun _ => "s") msgs20 (by decide)⟩

/-- C8 counterexample: a human correction that supplies `domain` with the
empty string does not replace the prior domain — Python `or` treats the
supplied falsy value as absent. -/
theorem C8_counterexample :
    ({ domain := some "" } : HumanInput).domain = some "" ∧
    (human_checkpoint "t" { domain := some "" } { domain := "finance" }).domain =
      "finance" := by
  exact ⟨rfl, rfl⟩

/-- C8 amended: on resume `domain_confidence` is set to 1.0 and the next
stage is always `data_extractor`; fields supplied with non-empty values
replace the state, while fields that are absent — or supplied empty
(empty string, empty KPI list), which Python `or` cannot distinguish from
absent — keep their prior values. -/
theorem C8_resume_semantics :
    (∀ (now : String) (h : HumanInput) (s : ARIAState),
      (human_checkpoint now h s).domain_confidence = 1) ∧
    (∀ s : ARIAState, graphSuccessor "human_checkpoint" s = some "data_extractor") ∧
    (∀ (now : String) (h : HumanInput) (s : ARIAState) (d : String),
      h.domain = some d → d ≠ "" → (human_checkpoint now h s).domain = d) ∧
    (∀ (now : String) (h : HumanInput) (s : ARIAState),
      (h.domain = none ∨ h.domain = some "") →
      (human_checkpoint now h s).domain = s.domain) ∧
    (∀ (now : String) (h : HumanInput) (s : ARIAState) (p : String),
      h.reporting_period = some p → p ≠ "" →
      (human_checkpoint now h s).reporting_period = p) ∧
    (∀ (now : String) (h : HumanInput) (s : ARIAState),
      (h.reporting_period = none ∨ h.reporting_period = some "") →
      (human_checkpoint now h s).reporting_period = s.reporting_period) ∧
    (∀ (now : String) (h : HumanInput) (s : ARIAState) (ks : List String),
      h.kpis = some ks → ks ≠ [] → (human_checkpoint now h s).kpis = ks) ∧
    (∀ (now : String) (h : HumanInput) (s : ARIAState),
      (h.kpis = none ∨ h.kpis = some []) →
      (human_checkpoint now h s).kpis = s.kpis) := by
  refine ⟨?_, ?_, ?_, ?_, ?_, ?_, ?_, ?_⟩
  · intro now h s
    rfl
  · intro s
    rfl
  · intro now h s d hd hne
    have hv : (human_checkpoint now h s).domain = pyOrStr h.domain s.domain := rfl
    rw [hv, hd]
    show (if d = "" then s.domain else d) = d
    rw [if_neg hne]
  · intro now h s hd
    have hv : (human_checkpoint now h s).domain = pyOrStr h.domain s.domain := rfl
    rw [hv]
    rcases hd with hd | hd <;> rw [hd] <;> rfl
  · intro now h s p hp hne
    have hv : (human_checkpoint now h s).reporting_period =
        pyOrStr h.reporting_period s.reporting_period := rfl
    rw [hv, hp]
    show (if p = "" then s.reporting_period else p) = p
    rw [if_neg hne]
  · intro now h s hp
    have hv : (human_checkpoint now h s).reporting_period =
        pyOrStr h.reporting_period s.reporting_period := rfl
    rw [hv]
    rcases hp with hp | hp <;> rw [hp] <;> rfl
  · intro now h s ks hk hne
    have hv : (human_checkpoint now h s).kpis = pyOrList h.kpis s.kpis := rfl
    rw [hv, hk]
    show (if ks.isEmpty = true then s.kpis else ks) = ks
    rw [if_neg (by simpa using hne)]
  · intro now h s hk
    have hv : (human_checkpoint now h s).kpis = pyOrList h.kpis s.kpis := rfl
    rw [hv]
    rcases hk with hk | hk <;> rw [hk] <;> rfl

/-- Helper: a key reported absent by `hasKey` is absent for `jGet`. -/
lemma hasKey_false_jGet (v : J) (k : String) (h : hasKey v k = false) :
    jGet v k = none := by
  cases v with
  | jobj kvs =>
    have h2 : kvs.any (fun kv => decide (kv.1 = k)) = false := h
    show Option.map Prod.snd (List.find? (fun kv => decide (kv.1 = k)) kvs) = none
    rw [List.find?_eq_none.mpr]
    · rfl
    · intro kv hkv hdec
      have h3 : kvs.any (fun kv => decide (kv.1 = k)) = true :=
        List.any_eq_true.mpr ⟨kv, hkv, hdec⟩
      rw [h3] at h2
      exact absurd h2 (by decide)
  | jnull => rfl
  | jbool b => rfl
  | jnum q => rfl
  | jstr t => rfl
  | jarr xs => rfl

/-- Helper: the validator outcome once the test loop returned a value. -/
lemma validate_gotResult (params : List String) (call : J → CallOutcome) (v : J)
    (hp : params ≠ [])
    (hloop : validateLoop call testInputs = LoopOut.gotResult v) :
    validate_output_contract params call = postLoopCheck v := by
  unfold validate_output_contract
  rw [if_neg (by simpa using hp), hloop]

/-- Helper: a dict with no `error` key and a missing (or non-list) `rows`
or a missing `columns` is rejected with some violation message. -/
lemma checkResult_missing_keys (kvs : List (String × J))
    (herr : hasKey (J.jobj kvs) "error" = false)
    (h : hasKey (J.jobj kvs) "rows" = false ∨ hasKey (J.jobj kvs) "columns" = false) :
    ∃ m, checkResult (J.jobj kvs) = ValidateOut.viol m := by
  unfold checkResult
  rw [if_neg (by simp [herr])]
  rcases h with h | h
  · rw [hasKey_false_jGet _ _ h]
    exact ⟨_, rfl⟩
  · cases hjr : jGet (J.jobj kvs) "rows" with
    | none => exact ⟨_, rfl⟩
    | some rows =>
      cases rows with
      | jarr rlist =>
        rw [hasKey_false_jGet _ _ h]
        exact ⟨_, rfl⟩
      | jnull => exact ⟨_, rfl⟩
      | jbool b => exact ⟨_, rfl⟩
      | jnum q => exact ⟨_, rfl⟩
      | jstr t => exact ⟨_, rfl⟩
      | jobj o => exact ⟨_, rfl⟩

/-- Helper: the row-homogeneity loop rejects as soon as any row (all of
them dicts) has a key set differing from the first row's. -/
lemma rowsHomogeneity_viol (firstKeys : List String) :
    ∀ rest : List J, (∀ r ∈ rest, isObj r = true) →
      (∃ row ∈ rest, sameKeySet (objKeys row) firstKeys = false) →
      rowsHomogeneity firstKeys rest = ValidateOut.viol "Rows have inconsistent keys" := by
  intro rest
  induction rest with
  | nil =>
    intro _ hex
    simp at hex
  | cons row tl ih =>
    intro hobj hex
    have hrow := hobj row (List.mem_cons_self _ _)
    cases row with
    | jobj kvs =>
      show (if sameKeySet (kvs.map Prod.fst) firstKeys = true
        then rowsHomogeneity firstKeys tl
        else ValidateOut.viol "Rows have inconsistent keys") = _
      by_cases hk : sameKeySet (kvs.map Prod.fst) firstKeys = true
      · rw [if_pos hk]
        apply ih (fun r hr => hobj r (List.mem_cons_of_mem _ hr))
        rcases hex with ⟨r2, hr2, hne⟩
        rcases List.mem_cons.mp hr2 with hr2 | hr2
        · exfalso
          rw [hr2] at hne
          have hne2 : sameKeySet (kvs.map Prod.fst) firstKeys = false := hne
          rw [hk] at hne2
          exact absurd hne2 (by decide)
        · exact ⟨r2, hr2, hne⟩
      · rw [if_neg hk]
    | jnull => exact absurd hrow (by simp [isObj])
    | jbool b => exact absurd hrow (by simp [isObj])
    | jnum q => exact absurd hrow (by simp [isObj])
    | jstr t => exact absurd hrow (by simp [isObj])
    | jarr xs => exact absurd hrow (by simp [isObj])

/-- Helper: the shape checks reject any dict result — whatever its other
keys — whose rows list (all dicts, alongside a columns list) contains a
row whose key set differs from the first row's. -/
lemma checkResult_inconsistent (kvs : List (String × J)) (r0 : J) (rest : List J)
    (cols : List J)
    (herr : hasKey (J.jobj kvs) "error" = false)
    (hrows : jGet (J.jobj kvs) "rows" = some (J.jarr (r0 :: rest)))
    (hcols : jGet (J.jobj kvs) "columns" = some (J.jarr cols))
    (hobj : ∀ r ∈ r0 :: rest, isObj r = true)
    (hex : ∃ row ∈ rest, sameKeySet (objKeys row) (objKeys r0) = false) :
    checkResult (J.jobj kvs) = ValidateOut.viol "Rows have inconsistent keys" := by
  unfold checkResult
  rw [if_neg (by simp [herr])]
  rw [hrows, hcols]
  have hr0 := hobj r0 (List.mem_cons_self _ _)
  cases r0 with
  | jobj kvs0 =>
    show rowsHomogeneity (objKeys (J.jobj kvs0)) rest =
      ValidateOut.viol "Rows have inconsistent keys"
    exact rowsHomogeneity_viol (objKeys (J.jobj kvs0)) rest
      (fun r hr => hobj r (List.mem_cons_of_mem _ hr)) hex
  | jnull => exact absurd hr0 (by simp [isObj])
  | jbool b => exact absurd hr0 (by simp [isObj])
  | jnum q => exact absurd hr0 (by simp [isObj])
  | jstr t => exact absurd hr0 (by simp [isObj])
  | jarr xs => exact absurd hr0 (by simp [isObj])

/-- Helper: the whole `code_tester` gate passes once the contract check
reports no violation on non-empty code. -/
lemma code_tester_passes_of_validate (params : List String) (call : J → CallOutcome)
    (stdout : String) (s : TBState) (hcode : s.generated_code ≠ "")
    (hv : validate_output_contract params call = ValidateOut.pass) :
    (code_tester (fun _ => SandboxResult.fn params call stdout) s).test_passed = true := by
  unfold code_tester
  rw [if_neg hcode]
  simp only []
  rw [hv]

/-- Helper: the test loop exhausts when every synthetic input raises a
retry-set exception. -/
lemma validateLoop_exhausted (call : J → CallOutcome) :
    ∀ l : List J, (∀ i ∈ l, call i = CallOutcome.raiseMatched) →
      validateLoop call l = LoopOut.exhausted := by
  intro l h
  induction l with
  | nil => rfl
  | cons a t ih =>
    unfold validateLoop
    rw [h a (by simp)]
    exact ih (fun i hi => h i (by simp [hi]))

/-- C4 counterexample: a sandboxed test call that returns Python `None`
returns a non-dict value, yet the validator reports no violation — the
`result is None` branch conflates a returned `None` with an untestable
callable. -/
theorem C4_counterexample :
    isObj J.jnull = false ∧
    validate_output_contract ["source"] (fun _ => CallOutcome.ret J.jnull) =
      ValidateOut.pass :=
  ⟨rfl, rfl⟩

/-- C4 amended: for a value returned by the sandboxed test call, the
validator rejects any dict result — whatever its other keys — whose rows
(all records) do not all share the first row's key set, wherever the
divergence occurs; accepts empty rows/columns; accepts an explicit error
dict; and rejects any other non-dict value or dict missing the rows or
columns lists — with the one exception that a returned `None` is treated
like an untestable callable and accepted without inspection. -/
theorem C4_output_contract :
    (∀ (params : List String) (call : J → CallOutcome),
      params ≠ [] →
      validateLoop call testInputs = LoopOut.gotResult J.jnull →
      validate_output_contract params call = ValidateOut.pass) ∧
    (∀ (params : List String) (call : J → CallOutcome) (v : J),
      params ≠ [] →
      validateLoop call testInputs = LoopOut.gotResult v →
      hasKey v "error" = true →
      validate_output_contract params call = ValidateOut.pass) ∧
    (∀ (params : List String) (call : J → CallOutcome),
      params ≠ [] →
      validateLoop call testInputs =
        LoopOut.gotResult (J.jobj [("rows", J.jarr []), ("columns", J.jarr [])]) →
      validate_output_contract params call = ValidateOut.pass) ∧
    (∀ (params : List String) (call : J → CallOutcome) (v : J),
      params ≠ [] →
      validateLoop call testInputs = LoopOut.gotResult v →
      isObj v = false → v ≠ J.jnull →
      ∃ m, validate_output_contract params call = ValidateOut.viol m) ∧
    (∀ (params : List String) (call : J → CallOutcome) (kvs : List (String × J)),
      params ≠ [] →
      validateLoop call testInputs = LoopOut.gotResult (J.jobj kvs) →
      hasKey (J.jobj kvs) "error" = false →
      (hasKey (J.jobj kvs) "rows" = false ∨ hasKey (J.jobj kvs) "columns" = false) →
      ∃ m, validate_output_contract params call = ValidateOut.viol m) ∧
    (∀ (params : List String) (call : J → CallOutcome) (kvs : List (String × J))
       (r0 : J) (rest : List J),
      params ≠ [] →
      validateLoop call testInputs = LoopOut.gotResult (J.jobj kvs) →
      hasKey (J.jobj kvs) "error" = false →
      jGet (J.jobj kvs) "rows" = some (J.jarr (r0 :: rest)) →
      (∃ cols, jGet (J.jobj kvs) "columns" = some (J.jarr cols)) →
      (∀ r ∈ r0 :: rest, isObj r = true) →
      (∃ row ∈ rest, sameKeySet (objKeys row) (objKeys r0) = false) →
      validate_output_contract params call =
        ValidateOut.viol "Rows have inconsistent keys") := by
  refine ⟨?_, ?_, ?_, ?_, ?_, ?_⟩
  · intro params call hp hloop
    rw [validate_gotResult params call _ hp hloop]
    rfl
  · intro params call v hp hloop herr
    rw [validate_gotResult params call v hp hloop]
    cases v with
    | jnull => rfl
    | jobj kvs =>
      show checkResult (J.jobj kvs) = ValidateOut.pass
      unfold checkResult
      rw [if_pos (by simp [herr])]
    | jbool b => simp [hasKey] at herr
    | jnum q => simp [hasKey] at herr
    | jstr t => simp [hasKey] at herr
    | jarr xs => simp [hasKey] at herr
  · intro params call hp hloop
    rw [validate_gotResult params call _ hp hloop]
    rfl
  · intro params call v hp hloop hobj hnull
    rw [validate_gotResult params call v hp hloop]
    cases v with
    | jnull => exact absurd rfl hnull
    | jobj kvs => exact absurd hobj (by simp [isObj])
    | jbool b => exact ⟨_, rfl⟩
    | jnum q => exact ⟨_, rfl⟩
    | jstr t => exact ⟨_, rfl⟩
    | jarr xs => exact ⟨_, rfl⟩
  · intro params call kvs hp hloop herr h
    rw [validate_gotResult params call _ hp hloop]
    exact checkResult_missing_keys kvs herr h
  · intro params call kvs r0 rest hp hloop herr hrows hcols hobjs hex
    obtain ⟨cols, hcols⟩ := hcols
    rw [validate_gotResult params call _ hp hloop]
    show checkResult (J.jobj kvs) = _
    exact checkResult_inconsistent kvs r0 rest cols herr hrows hcols hobjs hex

/-- C4 witness: a concrete result with an extra top-level key whose THIRD
row diverges from the first two is rejected as a contract violation. -/
theorem C4_witness :
    validate_output_contract ["source"]
      (fun _ => CallOutcome.ret
        (J.jobj [("rows", J.jarr [J.jobj [("a", J.jnum 1)],
                                  J.jobj [("a", J.jnum 2)],
                                  J.jobj [("b", J.jnum 3)]]),
                 ("columns", J.jarr [J.jstr "a"]),
                 ("note", J.jstr "extra key")])) =
      ValidateOut.viol "Rows have inconsistent keys" := by
  exact C4_output_contract.2.2.2.2.2 ["source"]
    (fun _ => CallOutcome.ret
      (J.jobj [("rows", J.jarr [J.jobj [("a", J.jnum 1)],
                                J.jobj [("a", J.jnum 2)],
                                J.jobj [("b", J.jnum 3)]]),
               ("columns", J.jarr [J.jstr "a"]),
               ("note", J.jstr "extra key")]))
    [("rows", J.jarr [J.jobj [("a", J.jnum 1)],
                      J.jobj [("a", J.jnum 2)],
                      J.jobj [("b", J.jnum 3)]]),
     ("columns", J.jarr [J.jstr "a"]),
     ("note", J.jstr "extra key")]
    (J.jobj [("a", J.jnum 1)])
    [J.jobj [("a", J.jnum 2)], J.jobj [("b", J.jnum 3)]]
    (by decide) rfl rfl rfl ⟨[J.jstr "a"], rfl⟩ (by decide)
    ⟨J.jobj [("b", J.jnum 3)], List.Mem.tail _ (List.Mem.head _), by decide⟩

/-- C5 counterexample: a synthesized callable whose test invocation
raises an exception outside the retry set (modelled by
`CallOutcome.raiseOther`) is reported contract-compliant, and the sandbox
test passes — the claim says any such exception must fail the test. -/
theorem C5_counterexample :
    validate_output_contract ["source"] (fun _ => CallOutcome.raiseOther) =
      ValidateOut.pass ∧
    (code_tester
      (fun _ => SandboxResult.fn ["source"] (fun _ => CallOutcome.raiseOther) "")
      { generated_code := "code", tool_spec := xmlToolSpec }).test_passed = true :=
  ⟨rfl, rfl⟩

/-- C5 amended: exceptions raised by the test invocation never fail the
sandbox test: a retry-set exception (FileNotFoundError/KeyError/
TypeError) advances the loop to the next synthetic input and exhaustion
passes, while an exception of any other class short-circuits the whole
validator to "no violation" and the test passes; only a returned value is
contract-checked, and only its contract violation fails the test. -/
theorem C5_exception_handling :
    (∀ (call : J → CallOutcome) (input : J) (rest : List J),
      call input = CallOutcome.raiseMatched →
      validateLoop call (input :: rest) = validateLoop call rest) ∧
    (∀ (call : J → CallOutcome) (input : J) (rest : List J),
      call input = CallOutcome.raiseOther →
      validateLoop call (input :: rest) = LoopOut.acceptedExc) ∧
    (∀ (params : List String) (call : J → CallOutcome) (stdout : String) (s : TBState),
      s.generated_code ≠ "" →
      validateLoop call testInputs = LoopOut.acceptedExc →
      (code_tester (fun _ => SandboxResult.fn params call stdout) s).test_passed = true) ∧
    (∀ (params : List String) (call : J → CallOutcome) (stdout : String) (s : TBState),
      s.generated_code ≠ "" →
      validateLoop call testInputs = LoopOut.exhausted →
      (code_tester (fun _ => SandboxResult.fn params call stdout) s).test_passed = true) ∧
    (∀ (params : List String) (call : J → CallOutcome) (stdout : String)
       (s : TBState) (m : String),
      validate_output_contract params call = ValidateOut.viol m →
      (code_tester (fun _ => SandboxResult.fn params call stdout) s).test_passed = false) := by
  refine ⟨?_, ?_, ?_, ?_, ?_⟩
  · intro call input rest hc
    conv_lhs => unfold validateLoop
    rw [hc]
  · intro call input rest hc
    conv_lhs => unfold validateLoop
    rw [hc]
  · intro params call stdout s hcode hloop
    apply code_tester_passes_of_validate params call stdout s hcode
    unfold validate_output_contract
    by_cases hp : params.isEmpty
    · rw [if_pos hp]
    · rw [if_neg hp, hloop]
  · intro params call stdout s hcode hloop
    apply code_tester_passes_of_validate params call stdout s hcode
    unfold validate_output_contract
    by_cases hp : params.isEmpty
    · rw [if_pos hp]
    · rw [if_neg hp, hloop]
  · intro params call stdout s m hv
    unfold code_tester
    by_cases hcode : s.generated_code = ""
    · rw [if_pos hcode]
    · rw [if_neg hcode]
      simp only []
      rw [hv]

/-- C5 witness: a callable raising an unmatched exception on the first
synthetic input makes the sandbox test pass. -/
theorem C5_witness :
    (code_tester
      (fun _ => SandboxResult.fn ["src"] (fun _ => CallOutcome.raiseOther) "out")
      { generated_code := "def f", tool_spec := xmlToolSpec }).test_passed = true := by
  exact C5_exception_handling.2.2.1 ["src"] (fun _ => CallOutcome.raiseOther) "out"
    { generated_code := "def f", tool_spec := xmlToolSpec } (by decide) rfl

/-- C10: a zero-parameter callable passes the validator for every
invocation behaviour, and a callable on which all three synthetic inputs
raise a retry-set exception passes as well — in both cases for every
possible return behaviour, so no output value is ever inspected — and the
full sandbox gate then reports the test as passed. -/
theorem C10_no_output_validation :
    (∀ call : J → CallOutcome,
      validate_output_contract [] call = ValidateOut.pass) ∧
    (∀ (params : List String) (call : J → CallOutcome),
      (∀ input ∈ testInputs, call input = CallOutcome.raiseMatched) →
      validate_output_contract params call = ValidateOut.pass) ∧
    (∀ (params : List String) (call : J → CallOutcome) (stdout : String) (s : TBState),
      s.generated_code ≠ "" →
      (∀ input ∈ testInputs, call input = CallOutcome.raiseMatched) →
      (code_tester (fun _ => SandboxResult.fn params call stdout) s).test_passed = true) := by
  have hpass : ∀ (params : List String) (call : J → CallOutcome),
      (∀ input ∈ testInputs, call input = CallOutcome.raiseMatched) →
      validate_output_contract params call = ValidateOut.pass := by
    intro params call h
    unfold validate_output_contract
    by_cases hp : params.isEmpty
    · rw [if_pos hp]
    · rw [if_neg hp, validateLoop_exhausted call testInputs h]
  refine ⟨?_, hpass, ?_⟩
  · intro call
    rfl
  · intro params call stdout s hcode h
    exact code_tester_passes_of_validate params call stdout s hcode (hpass params call h)

/-- C10 witness: a one-parameter callable raising `FileNotFoundError` on
every synthetic input slips through the gate untested. -/
theorem C10_witness :
    (code_tester
      (fun _ => SandboxResult.fn ["source"] (fun _ => CallOutcome.raiseMatched) "")
      { generated_code := "def g", tool_spec := xmlToolSpec }).test_passed = true := by
  exact C10_no_output_validation.2.2 ["source"] (fun _ => CallOutcome.raiseMatched) ""
    { generated_code := "def g", tool_spec := xmlToolSpec } (by decide)
    (fun input _ => rfl)

/-- Helper: `code_generator` never touches `tool_result` or
`fix_iteration`. -/
lemma code_generator_keeps (g : Option GenResult) (s : TBState) :
    (code_generator g s).tool_result = s.tool_result ∧
    (code_generator g s).fix_iteration = s.fix_iteration := by
  unfold code_generator
  cases genCode g with
  | none => exact ⟨rfl, rfl⟩
  | some cr => exact ⟨rfl, rfl⟩

/-- Helper: `code_tester` never touches `tool_result` or `fix_iteration`. -/
lemma code_tester_keeps (sb : String → SandboxResult) (s : TBState) :
    (code_tester sb s).tool_result = s.tool_result ∧
    (code_tester sb s).fix_iteration = s.fix_iteration := by
  unfold code_tester
  by_cases hc : s.generated_code = ""
  · rw [if_pos hc]
    exact ⟨rfl, rfl⟩
  · rw [if_neg hc]
    refine ⟨?_, ?_⟩ <;>
    · split
      · rfl
      · rfl
      · split <;> rfl

/-- Helper: `code_fixer` increments `fix_iteration` by exactly one and
never touches `tool_result`. -/
lemma code_fixer_keeps (f : Nat → Option GenResult) (s : TBState) :
    (code_fixer f s).tool_result = s.tool_result ∧
    (code_fixer f s).fix_iteration = s.fix_iteration + 1 := by
  unfold code_fixer
  cases genCode (f s.fix_iteration) with
  | none => exact ⟨rfl, rfl⟩
  | some cr => exact ⟨rfl, rfl⟩

/-- Helper: under a sandbox that never passes, `code_tester` never sets
`test_passed`. -/
lemma code_tester_not_passed (sb : String → SandboxResult) (s : TBState)
    (H : ∀ c, sandboxPasses (sb c) = false) :
    (code_tester sb s).test_passed = false := by
  unfold code_tester
  by_cases hc : s.generated_code = ""
  · rw [if_pos hc]
  · rw [if_neg hc]
    split
    · rfl
    · rfl
    · rename_i params call stdout hsb
      split
      · rename_i hv
        exfalso
        have hsbp := H s.generated_code
        rw [hsb] at hsbp
        have hsbp2 : decide (validate_output_contract params call = ValidateOut.pass) =
            false := hsbp
        rw [hv] at hsbp2
        exact absurd hsbp2 (by decide)
      · rfl
      · rfl

/-- Helper: a test routed to `code_fixer` had `fix_iteration < 3`. -/
lemma route_after_test_fixer (s : TBState)
    (h : route_after_test s = "code_fixer") : s.fix_iteration < 3 := by
  unfold route_after_test at h
  split_ifs at h with h1 h2
  · exact absurd h (by decide)
  · exact h2
  · exact absurd h (by decide)

/-- Helper: the number of `code_fixer` visits in any run suffix is bounded
by the remaining repair budget. -/
lemma tbRun_fixer_le (env : TBEnv) :
    ∀ (fuel : Nat) (node : String) (s : TBState),
      ((tbRun env fuel node s).2.count "code_fixer") ≤
        (if node = "code_fixer" then 1 + (3 - (s.fix_iteration + 1))
         else 3 - s.fix_iteration) := by
  intro fuel
  induction fuel with
  | zero =>
    intro node s
    unfold tbRun
    simp only [List.count_nil]
    omega
  | succ n ih =>
    intro node s
    unfold tbRun
    by_cases h1 : node = "code_generator"
    · subst h1
      rw [if_pos rfl]
      show (("code_generator" ::
        (tbRun env n "code_tester" (code_generator env.gen s)).2).count "code_fixer") ≤ _
      rw [List.count_cons_of_ne (by decide)]
      have hk := (code_generator_keeps env.gen s).2
      have hih := ih "code_tester" (code_generator env.gen s)
      rw [if_neg (by decide)] at hih
      rw [hk] at hih
      rw [if_neg (by decide)]
      exact hih
    · rw [if_neg h1]
      by_cases h2 : node = "code_tester"
      · subst h2
        rw [if_pos rfl]
        by_cases hEnd : route_after_test (code_tester env.sandbox s) = "END"
        · rw [if_pos hEnd]
          show ((["code_tester"]).count "code_fixer") ≤ _
          rw [List.count_cons_of_ne (by decide), List.count_nil]
          omega
        · rw [if_neg hEnd]
          show (("code_tester" ::
            (tbRun env n (route_after_test (code_tester env.sandbox s))
              (code_tester env.sandbox s)).2).count "code_fixer") ≤ _
          rw [List.count_cons_of_ne (by decide)]
          have hk := (code_tester_keeps env.sandbox s).2
          rw [if_neg (by decide)]
          by_cases hpf : route_after_test (code_tester env.sandbox s) = "code_fixer"
          · have hlt : (code_tester env.sandbox s).fix_iteration < 3 :=
              route_after_test_fixer _ hpf
            have hih := ih (route_after_test (code_tester env.sandbox s))
              (code_tester env.sandbox s)
            rw [if_pos hpf] at hih
            rw [hk] at hih
            rw [hk] at hlt
            omega
          · have hih := ih (route_after_test (code_tester env.sandbox s))
              (code_tester env.sandbox s)
            rw [if_neg hpf] at hih
            rw [hk] at hih
            omega
      · rw [if_neg h2]
        by_cases h3 : node = "code_fixer"
        · subst h3
          rw [if_pos rfl]
          show (("code_fixer" ::
            (tbRun env n (route_after_fix (code_fixer env.fix s))
              (code_fixer env.fix s)).2).count "code_fixer") ≤ _
          have hrf : route_after_fix (code_fixer env.fix s) = "code_tester" := rfl
          rw [hrf, List.count_cons_self]
          have hk := (code_fixer_keeps env.fix s).2
          have hih := ih "code_tester" (code_fixer env.fix s)
          rw [if_neg (by decide)] at hih
          rw [hk] at hih
          rw [if_pos rfl]
          omega
        · rw [if_neg h3]
          by_cases h4 : node = "tool_persister"
          · rw [if_pos h4]
            show ((["tool_persister"]).count "code_fixer") ≤ _
            rw [List.count_cons_of_ne (by decide), List.count_nil]
            split_ifs <;> omega
          · rw [if_neg h4]
            show (([] : List String).count "code_fixer") ≤ _
            rw [List.count_nil]
            split_ifs <;> omega

/-- Helper: under a sandbox that never passes, no run suffix entered away
from `tool_persister` ever sets `tool_result`. -/
lemma tbRun_all_fail_no_result (env : TBEnv)
    (H : ∀ c, sandboxPasses (env.sandbox c) = false) :
    ∀ (fuel : Nat) (node : String) (s : TBState),
      node ≠ "tool_persister" → s.tool_result = none →
      (tbRun env fuel node s).1.tool_result = none := by
  intro fuel
  induction fuel with
  | zero =>
    intro node s _ hs
    exact hs
  | succ n ih =>
    intro node s hnp hs
    unfold tbRun
    by_cases h1 : node = "code_generator"
    · subst h1
      rw [if_pos rfl]
      exact ih "code_tester" _ (by decide)
        ((code_generator_keeps env.gen s).1.trans hs)
    · rw [if_neg h1]
      by_cases h2 : node = "code_tester"
      · subst h2
        rw [if_pos rfl]
        have hs1 : (code_tester env.sandbox s).tool_result = none :=
          (code_tester_keeps env.sandbox s).1.trans hs
        by_cases hEnd : route_after_test (code_tester env.sandbox s) = "END"
        · rw [if_pos hEnd]
          exact hs1
        · rw [if_neg hEnd]
          have hnp2 : route_after_test (code_tester env.sandbox s) ≠ "tool_persister" := by
            unfold route_after_test
            rw [code_tester_not_passed env.sandbox s H]
            rw [if_neg (by decide : ¬ (false = true))]
            split_ifs
            · decide
            · decide
          exact ih _ _ hnp2 hs1
      · rw [if_neg h2]
        by_cases h3 : node = "code_fixer"
        · subst h3
          rw [if_pos rfl]
          have hrf : route_after_fix (code_fixer env.fix s) = "code_tester" := rfl
          rw [hrf]
          exact ih "code_tester" _ (by decide)
            ((code_fixer_keeps env.fix s).1.trans hs)
        · rw [if_neg h3]
          rw [if_neg hnp]
          exact hs

/-- C3 counterexample: with a sandbox that always fails with the detail
`boom`, the run performs exactly 3 repair calls and terminates with the
generic fallback result — the returned SynthesisResult does not carry the
last failure detail (which remains only in the sub-state `test_error`). -/
theorem C3_counterexample :
    (tbFinalState tbEnvAllFail xmlToolSpec).test_error = "boom" ∧
    (run_tool_builder tbEnvAllFail xmlToolSpec).status = "failed" ∧
    (run_tool_builder tbEnvAllFail xmlToolSpec).error =
      "No result returned from tool builder graph" ∧
    strContains (run_tool_builder tbEnvAllFail xmlToolSpec).error "boom" = false ∧
    (tbTrace tbEnvAllFail xmlToolSpec).count "code_fixer" = 3 := by
  decide

/-- C3 amended: the sub-machine never exceeds 3 repair attempts (in every
environment), and when every sandbox test fails the run terminates with a
`failed` SynthesisResult — but that result is the generic fallback
`No result returned from tool builder graph`, not one carrying the last
failure detail, because the graph reaches END without ever setting
`tool_result`. -/
theorem C3_repair_cap :
    (∀ (env : TBEnv) (spec : J),
      ((tbTrace env spec).count "code_fixer") ≤ 3) ∧
    (∀ (env : TBEnv) (spec : J),
      (∀ c, sandboxPasses (env.sandbox c) = false) →
      run_tool_builder env spec = tbFallbackResult spec ∧
      (run_tool_builder env spec).status = "failed" ∧
      (run_tool_builder env spec).error =
        "No result returned from tool builder graph") := by
  constructor
  · intro env spec
    have h := tbRun_fixer_le env 20 "code_generator" (tbInitialState spec)
    rw [if_neg (by decide : ¬ ("code_generator" = "code_fixer"))] at h
    exact le_trans h (by omega)
  · intro env spec H
    have h1 : (tbRun env 20 "code_generator" (tbInitialState spec)).1.tool_result = none :=
      tbRun_all_fail_no_result env H 20 "code_generator" (tbInitialState spec)
        (by decide) rfl
    have h2 : run_tool_builder env spec = tbFallbackResult spec := by
      unfold run_tool_builder
      rw [h1]
      rfl
    refine ⟨h2, ?_, ?_⟩
    · rw [h2]
      rfl
    · rw [h2]
      rfl

/-- C3 witness: the always-failing environment realises the bound and the
generic failed result. -/
theorem C3_witness :
    (tbTrace tbEnvAllFail xmlToolSpec).count "code_fixer" ≤ 3 ∧
    run_tool_builder tbEnvAllFail xmlToolSpec = tbFallbackResult xmlToolSpec :=
  ⟨C3_repair_cap.1 tbEnvAllFail xmlToolSpec,
   (C3_repair_cap.2 tbEnvAllFail xmlToolSpec (fun c => rfl)).1⟩

/-- Helper: every `stats` entry is a five-statistic rollup. -/
lemma compute_stats_keys (records : List J) :
    ∀ kv ∈ compute_stats records,
      objKeys kv.2 = ["count", "sum", "avg", "min", "max"] := by
  intro kv hkv
  unfold compute_stats at hkv
  cases records with
  | nil => simp at hkv
  | cons sample rest =>
    rw [List.mem_filterMap] at hkv
    obtain ⟨field, hfield, hmk⟩ := hkv
    split_ifs at hmk with hv
    rw [Option.some_inj] at hmk
    rw [← hmk]
    rfl

/-- Helper: every `kpi_data` entry is a four-statistic rollup (no count). -/
lemma compute_kpi_keys (kpis : List String) (records : List J) :
    ∀ kv ∈ compute_kpi_data kpis records,
      objKeys kv.2 = ["avg", "sum", "min", "max"] := by
  intro kv hkv
  unfold compute_kpi_data at hkv
  rw [List.mem_filterMap] at hkv
  obtain ⟨kpi, hkpi, hmk⟩ := hkv
  split_ifs at hmk with hv
  rw [Option.some_inj] at hmk
  rw [← hmk]
  rfl

/-- Helper: a first-record field with numeric values gets a stats entry. -/
lemma compute_stats_mem (records : List J) (field : String)
    (hf : field ∈ objKeys (records.headD (J.jobj [])))
    (hv : fieldVals records field ≠ []) :
    field ∈ (compute_stats records).map Prod.fst := by
  cases records with
  | nil => simp [objKeys] at hf
  | cons sample rest =>
    unfold compute_stats
    refine List.mem_map.mpr ⟨(field, statsRollup (fieldVals (sample :: rest) field)), ?_, rfl⟩
    refine List.mem_filterMap.mpr ⟨field, hf, ?_⟩
    rw [if_neg (by simpa using hv)]

/-- Helper: a KPI with matching numeric values gets a `kpi_data` entry. -/
lemma compute_kpi_mem (kpis : List String) (records : List J) (kpi : String)
    (hk : kpi ∈ kpis) (hv : kpiVals records kpi ≠ []) :
    kpi ∈ (compute_kpi_data kpis records).map Prod.fst := by
  unfold compute_kpi_data
  refine List.mem_map.mpr ⟨(kpi, kpiRollup (kpiVals records kpi)), ?_, rfl⟩
  refine List.mem_filterMap.mpr ⟨kpi, hk, ?_⟩
  rw [if_neg (by simpa using hv)]

/-- C9 counterexample: on a concrete dataset whose KPI `revenue` has
matching numeric values, the `kpi_data` rollup exists but carries no
`count` statistic (only avg/sum/min/max); moreover the numeric field
`cost`, absent from the first merged record, gets no `stats` rollup at
all although it has a numeric value. -/
theorem C9_counterexample :
    ((jGet (jGetD (consolidate_report consolidationInput [] "d" ["revenue"] "p" "now")
        "kpi_data" J.jnull) "revenue").map (fun r => hasKey r "count") = some false) ∧
    (jGet (jGetD (consolidate_report consolidationInput [] "d" ["revenue"] "p" "now")
      "stats" J.jnull) "cost").isNone = true ∧
    fieldVals (consolidateFlatten consolidationInput).1 "cost" = [5] ∧
    kpiVals (consolidateFlatten consolidationInput).1 "revenue" = [10, 20] := by
  decide

/-- C9 amended: the consolidated dataset carries a `stats` rollup with
all five statistics (count/sum/avg/min/max) for every numeric field OF
THE FIRST merged record, and a `kpi_data` rollup for every KPI with
matching numeric values — but the KPI rollup carries only the four
statistics avg/sum/min/max, with no count. -/
theorem C9_rollups :
    ∀ (processed : List J) (rag : List String) (dom : String) (kpis : List String)
      (per now : String),
      (∀ kv ∈ compute_stats (consolidateFlatten processed).1,
        objKeys kv.2 = ["count", "sum", "avg", "min", "max"]) ∧
      (∀ kv ∈ compute_kpi_data kpis (consolidateFlatten processed).1,
        objKeys kv.2 = ["avg", "sum", "min", "max"]) ∧
      (∀ field ∈ objKeys (((consolidateFlatten processed).1).headD (J.jobj [])),
        fieldVals (consolidateFlatten processed).1 field ≠ [] →
        field ∈ (compute_stats (consolidateFlatten processed).1).map Prod.fst) ∧
      (∀ kpi ∈ kpis,
        kpiVals (consolidateFlatten processed).1 kpi ≠ [] →
        kpi ∈ (compute_kpi_data kpis (consolidateFlatten processed).1).map Prod.fst) ∧
      jGet (consolidate_report processed rag dom kpis per now) "stats" =
        some (J.jobj (compute_stats (consolidateFlatten processed).1)) ∧
      jGet (consolidate_report processed rag dom kpis per now) "kpi_data" =
        some (J.jobj (compute_kpi_data kpis (consolidateFlatten processed).1)) := by
  intro processed rag dom kpis per now
  refine ⟨compute_stats_keys _, compute_kpi_keys _ _, ?_, ?_, rfl, rfl⟩
  · intro field hf hv
    exact compute_stats_mem _ field hf hv
  · intro kpi hk hv
    exact compute_kpi_mem _ _ kpi hk hv

/-- C9 witness: on the concrete dataset, the revenue KPI has an entry and
every stats entry carries the five statistics. -/
theorem C9_witness :
    "revenue" ∈ (compute_kpi_data ["revenue"]
      (consolidateFlatten consolidationInput).1).map Prod.fst ∧
    (∀ kv ∈ compute_stats (consolidateFlatten consolidationInput).1,
      objKeys kv.2 = ["count", "sum", "avg", "min", "max"]) :=
  ⟨(C9_rollups consolidationInput [] "d" ["revenue"] "p" "now").2.2.2.1 "revenue"
      (by decide) (by decide),
   (C9_rollups consolidationInput [] "d" ["revenue"] "p" "now").1⟩

/-- C8 witness: a non-empty supplied domain replaces the prior one and
confidence becomes 1. -/
theorem C8_witness :
    (human_checkpoint "t" { domain := some "retail" } { domain := "finance" }).domain =
      "retail" ∧
    (human_checkpoint "t" { domain := some "retail" }
      { domain := "finance" }).domain_confidence = 1 :=
  ⟨C8_resume_semantics.2.2.1 "t" { domain := some "retail" } { domain := "finance" }
      "retail" rfl (by decide),
   C8_resume_semantics.1 "t" { domain := some "retail" } { domain := "finance" }⟩

/-- Helper: the extraction loop only appends to the error list. -/
lemma extractLoop_errors (now : String) (xf : List String)
    (extract : String → DataSource → Except String J) :
    ∀ (srcs : List DataSource) (extracted : List J) (errors : List String),
      ∃ t, (extractLoop now xf extract srcs extracted errors).2 = errors ++ t := by
  intro srcs
  induction srcs with
  | nil =>
    intro extracted errors
    exact ⟨[], by simp [extractLoop]⟩
  | cons src rest ih =>
    intro extracted errors
    unfold extractLoop
    cases extract (extractorName xf src) src with
    | ok data => exact ih _ _
    | error e =>
      obtain ⟨t, ht⟩ := ih extracted
        (errors ++ ["data_extractor [" ++ src.source_id.getD "None" ++ "]: " ++ e])
      exact ⟨["data_extractor [" ++ src.source_id.getD "None" ++ "]: " ++ e] ++ t,
        by rw [ht, List.append_assoc]⟩

/-- Helper: the operation loop only appends to the error list. -/
lemma opsLoop_errors (applyOp : String → J → List J → Except String (List J)) :
    ∀ (ops : List J) (processed : List J) (errors : List String),
      ∃ t, (opsLoop applyOp ops processed errors).2 = errors ++ t := by
  intro ops
  induction ops with
  | nil =>
    intro processed errors
    exact ⟨[], by simp [opsLoop]⟩
  | cons opDef rest ih =>
    intro processed errors
    unfold opsLoop
    cases jGet opDef "op" with
    | none => exact ih _ _
    | some opName =>
      cases opName with
      | jstr nm =>
        show ∃ t, ((if nm ∈ opMapKeys then
            match applyOp nm (jGetD opDef "params" (J.jobj [])) processed with
            | Except.ok p => opsLoop applyOp rest p errors
            | Except.error e => opsLoop applyOp rest processed
                (errors ++ ["data_operator [" ++ nm ++ "]: " ++ e])
          else opsLoop applyOp rest processed errors)).2 = errors ++ t
        by_cases hmem : nm ∈ opMapKeys
        · rw [if_pos hmem]
          cases applyOp nm (jGetD opDef "params" (J.jobj [])) processed with
          | ok p => exact ih _ _
          | error e =>
            obtain ⟨t, ht⟩ := ih processed
              (errors ++ ["data_operator [" ++ nm ++ "]: " ++ e])
            exact ⟨["data_operator [" ++ nm ++ "]: " ++ e] ++ t,
              by rw [ht, List.append_assoc]⟩
        · rw [if_neg hmem]
          exact ih _ _
      | jnull => exact ih _ _
      | jbool b => exact ih _ _
      | jnum q => exact ih _ _
      | jarr xs => exact ih _ _
      | jobj kvs => exact ih _ _

/-- Helper: the retrieval loop only appends to the error list. -/
lemma ragLoop_errors (queryRag : String → Except String (List String)) :
    ∀ (queries : List String) (ctx : List String) (errors : List String),
      ∃ t, (ragLoop queryRag queries ctx errors).2 = errors ++ t := by
  intro queries
  induction queries with
  | nil =>
    intro ctx errors
    exact ⟨[], by simp [ragLoop]⟩
  | cons q rest ih =>
    intro ctx errors
    unfold ragLoop
    cases queryRag q with
    | ok chunks => exact ih _ _
    | error e =>
      obtain ⟨t, ht⟩ := ih ctx (errors ++ ["rag_retriever: " ++ e])
      exact ⟨["rag_retriever: " ++ e] ++ t, by rw [ht, List.append_assoc]⟩

/-- Helper: one renderer loop only appends to the error list. -/
lemma renderLoop_errors (render : String → Except String String) :
    ∀ (fmts : List String) (ofs : List String) (artifacts : J) (errors : List String),
      ∃ t, (renderLoop render fmts ofs artifacts errors).2 = errors ++ t := by
  intro fmts
  induction fmts with
  | nil =>
    intro ofs artifacts errors
    exact ⟨[], by simp [renderLoop]⟩
  | cons fmt rest ih =>
    intro ofs artifacts errors
    unfold renderLoop
    by_cases hmem : fmt ∈ ofs
    · rw [if_pos hmem]
      cases render fmt with
      | ok a => exact ih _ _ _
      | error e =>
        obtain ⟨t, ht⟩ := ih ofs artifacts (errors ++ ["render_" ++ fmt ++ ": " ++ e])
        exact ⟨["render_" ++ fmt ++ ": " ++ e] ++ t, by rw [ht, List.append_assoc]⟩
    · rw [if_neg hmem]
      exact ih _ _ _

/-- Helper: the smoke-validation step only appends to the error list. -/
lemma tbAgentValidation_errors (result : J) (vo : Except String Bool)
    (errors : List String) :
    ∃ t, (tbAgentValidation result vo errors).2 = errors ++ t := by
  unfold tbAgentValidation
  split_ifs with hc
  · cases vo with
    | ok b => exact ⟨[], by rw [List.append_nil]⟩
    | error e => exact ⟨["tool_builder_agent validation failed: " ++ e], rfl⟩
  · exact ⟨[], by rw [List.append_nil]⟩

/-- Helper: both renderer loops together only append to the error list. -/
lemma renderPipeline_errors (render : String → Except String String)
    (ofs : List String) (start : J × List String) :
    ∃ t, (renderPipeline render ofs start).2 = start.2 ++ t := by
  obtain ⟨t1, h1⟩ := renderLoop_errors render ["markdown", "html"] ofs start.1 start.2
  obtain ⟨t2, h2⟩ := renderLoop_errors render ["pdf", "pptx"] ofs
    (renderLoop render ["markdown", "html"] ofs start.1 start.2).1
    (renderLoop render ["markdown", "html"] ofs start.1 start.2).2
  exact ⟨t1 ++ t2, by
    unfold renderPipeline
    rw [h2, h1, List.append_assoc]⟩

/-- C7: across every stage, `iteration` is unchanged except in
`data_extractor`, which increments it by exactly one, and every stage
leaves `errors` equal to the incoming list plus an appended suffix — no
stage removes or reorders previously recorded errors. -/
theorem C7_iteration_errors_discipline :
    (∀ (now : String) (oracle : Option DomainResult) (s : ARIAState),
      (domain_identifier now oracle s).iteration = s.iteration ∧
      ∃ t, (domain_identifier now oracle s).errors = s.errors ++ t) ∧
    (∀ (now : String) (h : HumanInput) (s : ARIAState),
      (human_checkpoint now h s).iteration = s.iteration ∧
      ∃ t, (human_checkpoint now h s).errors = s.errors ++ t) ∧
    (∀ s : ARIAState,
      (research_agent s).iteration = s.iteration ∧
      ∃ t, (research_agent s).errors = s.errors ++ t) ∧
    (∀ (now : String) (xf : List String)
       (extract : String → DataSource → Except String J) (s : ARIAState),
      (data_extractor now xf extract s).iteration = s.iteration + 1 ∧
      ∃ t, (data_extractor now xf extract s).errors = s.errors ++ t) ∧
    (∀ (now : String) (plan : Option J)
       (applyOp : String → J → List J → Except String (List J)) (s : ARIAState),
      (data_operator now plan applyOp s).iteration = s.iteration ∧
      ∃ t, (data_operator now plan applyOp s).errors = s.errors ++ t) ∧
    (∀ (co : Except String J) (vo : Except String Bool) (s : ARIAState),
      (tool_builder_agent co vo s).iteration = s.iteration ∧
      ∃ t, (tool_builder_agent co vo s).errors = s.errors ++ t) ∧
    (∀ (now : String) (q : String → Except String (List String)) (s : ARIAState),
      (rag_retriever now q s).iteration = s.iteration ∧
      ∃ t, (rag_retriever now q s).errors = s.errors ++ t) ∧
    (∀ (now : String) (s : ARIAState),
      (data_consolidator now s).iteration = s.iteration ∧
      ∃ t, (data_consolidator now s).errors = s.errors ++ t) ∧
    (∀ (now : String) (oracle : Option TrizResult) (s : ARIAState),
      (triz_analyzer now oracle s).iteration = s.iteration ∧
      ∃ t, (triz_analyzer now oracle s).errors = s.errors ++ t) ∧
    (∀ (now : String) (rc : Except String (List String))
       (render : String → Except String String) (s : ARIAState),
      (report_generator now rc render s).iteration = s.iteration ∧
      ∃ t, (report_generator now rc render s).errors = s.errors ++ t) ∧
    (∀ (now : String) (s : ARIAState),
      (error_handler now s).iteration = s.iteration ∧
      ∃ t, (error_handler now s).errors = s.errors ++ t) := by
  refine ⟨?_, ?_, ?_, ?_, ?_, ?_, ?_, ?_, ?_, ?_, ?_⟩
  · intro now oracle s
    cases oracle with
    | none =>
      exact ⟨rfl, ⟨["domain_identifier: LLM returned invalid JSON"], rfl⟩⟩
    | some r =>
      refine ⟨rfl, ⟨[], ?_⟩⟩
      have he : (domain_identifier now (some r) s).errors = s.errors := rfl
      rw [he, List.append_nil]
  · intro now h s
    refine ⟨rfl, ⟨[], ?_⟩⟩
    rw [List.append_nil]
    rfl
  · intro s
    refine ⟨rfl, ⟨[], ?_⟩⟩
    rw [List.append_nil]
    rfl
  · intro now xf extract s
    refine ⟨rfl, ?_⟩
    have he : (data_extractor now xf extract s).errors =
        (extractLoop now xf extract s.data_sources [] s.errors).2 := rfl
    rw [he]
    exact extractLoop_errors now xf extract s.data_sources [] s.errors
  · intro now plan applyOp s
    constructor
    · unfold data_operator
      rcases hfind : s.extracted_data.find? entryUnknownFormat with _ | entry
      · dsimp only
        split
        · rfl
        · rfl
      · rfl
    · unfold data_operator
      rcases hfind : s.extracted_data.find? entryUnknownFormat with _ | entry
      · dsimp only
        split
        · exact ⟨[], by rw [List.append_nil]⟩
        · exact opsLoop_errors applyOp (operationsOf (plan.getD fallbackPlan))
            s.extracted_data s.errors
      · exact ⟨[], by rw [List.append_nil]⟩
  · intro co vo s
    refine ⟨rfl, ?_⟩
    cases co with
    | ok r =>
      have he : (tool_builder_agent (Except.ok r) vo s).errors =
          (tbAgentValidation
            (if isObj r then r
             else J.jobj [("status", J.jstr "failed"),
                          ("error", J.jstr "Unexpected result type")])
            vo s.errors).2 := rfl
      rw [he]
      exact tbAgentValidation_errors _ vo s.errors
    | error e =>
      have he : (tool_builder_agent (Except.error e) vo s).errors =
          (tbAgentValidation
            (J.jobj [("status", J.jstr "failed"),
                     ("error", J.jstr ("tool_builder_agent MCP call failed: " ++ e))])
            vo (s.errors ++ ["tool_builder_agent MCP call failed: " ++ e])).2 := rfl
      rw [he]
      obtain ⟨t, ht⟩ := tbAgentValidation_errors
        (J.jobj [("status", J.jstr "failed"),
                 ("error", J.jstr ("tool_builder_agent MCP call failed: " ++ e))])
        vo (s.errors ++ ["tool_builder_agent MCP call failed: " ++ e])
      exact ⟨["tool_builder_agent MCP call failed: " ++ e] ++ t,
        by rw [ht, List.append_assoc]⟩
  · intro now q s
    refine ⟨rfl, ?_⟩
    exact ragLoop_errors q _ [] s.errors
  · intro now s
    refine ⟨rfl, ⟨[], ?_⟩⟩
    rw [List.append_nil]
    rfl
  · intro now oracle s
    cases oracle with
    | none => exact ⟨rfl, ⟨["triz_analyzer: LLM returned invalid JSON"], rfl⟩⟩
    | some r =>
      refine ⟨rfl, ⟨[], ?_⟩⟩
      have he : (triz_analyzer now (some r) s).errors = s.errors := rfl
      rw [he, List.append_nil]
  · intro now rc render s
    constructor
    · cases rc with
      | ok paths => rfl
      | error e => rfl
    · cases rc with
      | ok paths =>
        have he : (report_generator now (Except.ok paths) render s).errors =
            (renderPipeline render s.output_formats
              (jSet (J.jobj [("json", final_report_of now s)]) "charts"
                (J.jarr (paths.map J.jstr)), s.errors)).2 := rfl
        rw [he]
        exact renderPipeline_errors render s.output_formats _
      | error e =>
        have he : (report_generator now (Except.error e) render s).errors =
            (renderPipeline render s.output_formats
              (J.jobj [("json", final_report_of now s)],
               s.errors ++ ["render_charts: " ++ e])).2 := rfl
        rw [he]
        obtain ⟨t, ht⟩ := renderPipeline_errors render s.output_formats
          (J.jobj [("json", final_report_of now s)],
           s.errors ++ ["render_charts: " ++ e])
        exact ⟨["render_charts: " ++ e] ++ t, by rw [ht, List.append_assoc]⟩
  · intro now s
    refine ⟨rfl, ⟨[], ?_⟩⟩
    rw [List.append_nil]
    rfl

end Aria
